import Mathlib

/-!
A verification development for the ClawRoute request-routing core
(classifier, router, validator, executor).  The TypeScript sources are
shallowly embedded: pure functions become Lean functions, `number` becomes
`Nat`/`ℚ` as appropriate, optional fields become `Option`, and the ambient
wall clock read by `new Date()` becomes an explicit `now : Nat` argument
(epoch milliseconds).  Strings are Lean `String`s (JS `.length` counts
UTF-16 code units, Lean counts codepoints; all inputs considered here are
ASCII, where the two agree).
-/

namespace ClawRoute

/-- `TaskTier` enum from types.ts.  Five complexity tiers. -/
inductive TaskTier where
  | heartbeat
  | simple
  | moderate
  | complex
  | frontier
deriving DecidableEq, Repr, Inhabited

/-- The string value of each enum member in types.ts. -/
def TaskTier.str : TaskTier → String
  | .heartbeat => "heartbeat"
  | .simple => "simple"
  | .moderate => "moderate"
  | .complex => "complex"
  | .frontier => "frontier"

/-- `TIER_ORDER` from types.ts: numeric ordering for tier comparison. -/
def TIER_ORDER : TaskTier → Nat
  | .heartbeat => 0
  | .simple => 1
  | .moderate => 2
  | .complex => 3
  | .frontier => 4

/-- Inverse used by the classifier's conservative-mode bump:
`Object.entries(TIER_ORDER).find(([, order]) => order === n)?.[0] ?? FRONTIER`. -/
def tierOfOrder (n : Nat) : TaskTier :=
  match n with
  | 0 => .heartbeat
  | 1 => .simple
  | 2 => .moderate
  | 3 => .complex
  | 4 => .frontier
  | _ => .frontier

/-- `ProviderType` from types.ts. -/
inductive ProviderType where
  | anthropic
  | openai
  | google
  | deepseek
  | openrouter
deriving DecidableEq, Repr, Inhabited

/-- The string value of each provider (as interpolated into messages). -/
def ProviderType.str : ProviderType → String
  | .anthropic => "anthropic"
  | .openai => "openai"
  | .google => "google"
  | .deepseek => "deepseek"
  | .openrouter => "openrouter"

-- === Generic string helpers (JS built-ins used by the sources) ===

/-- Substring containment on character lists (JS `String.prototype.includes`). -/
def listContainsSub (pat : List Char) : List Char → Bool
  | [] => pat.isEmpty
  | c :: cs => pat.isPrefixOf (c :: cs) || listContainsSub pat cs

/-- JS `s.includes(pat)`. -/
def strIncludes (s pat : String) : Bool :=
  listContainsSub pat.data s.data

/-- JS `s.endsWith(pat)`. -/
def strEndsWith (s pat : String) : Bool :=
  pat.data.isSuffixOf s.data

/-- JS `s.startsWith(pat)`. -/
def strStartsWith (s pat : String) : Bool :=
  pat.data.isPrefixOf s.data

/-- JS `s.trim()` (list implementation; the kernel cannot reduce the
position-based core `String.trim`). -/
def strTrim (s : String) : String :=
  ⟨((s.data.dropWhile Char.isWhitespace).reverse.dropWhile Char.isWhitespace).reverse⟩

/-- JS `s.toLowerCase()` on ASCII (list implementation). -/
def strToLower (s : String) : String :=
  ⟨s.data.map Char.toLower⟩

/-- JS `s.split(sep)` for a one-character separator. -/
def splitCharGo (sep : Char) (acc : List Char) : List Char → List (List Char)
  | [] => [acc.reverse]
  | c :: cs =>
    if c = sep then acc.reverse :: splitCharGo sep [] cs
    else splitCharGo sep (c :: acc) cs

/-- JS `s.split(sep)` (single-character separator). -/
def splitChar (sep : Char) (s : String) : List String :=
  (splitCharGo sep [] s.data).map (fun l => ⟨l⟩)

-- === Model catalog (models.ts) ===

/-- `ModelEntry` from types.ts (costs in USD per 1M tokens, as exact rationals). -/
structure ModelEntry where
  id : String
  provider : ProviderType
  inputCostPer1M : ℚ
  outputCostPer1M : ℚ
  maxContext : Nat
  toolCapable : Bool
  multimodal : Bool
  enabled : Bool
deriving DecidableEq, Repr

/-- `DEFAULT_MODELS` from models.ts. -/
def DEFAULT_MODELS : List ModelEntry := [
  { id := "google/gemini-2.5-flash-lite", provider := .google,
    inputCostPer1M := mkRat 10 100, outputCostPer1M := mkRat 40 100, maxContext := 1000000,
    toolCapable := false, multimodal := false, enabled := true },
  { id := "deepseek/deepseek-chat", provider := .deepseek,
    inputCostPer1M := mkRat 28 100, outputCostPer1M := mkRat 112 100, maxContext := 64000,
    toolCapable := true, multimodal := false, enabled := true },
  { id := "google/gemini-2.5-flash", provider := .google,
    inputCostPer1M := mkRat 30 100, outputCostPer1M := mkRat 250 100, maxContext := 1000000,
    toolCapable := true, multimodal := true, enabled := true },
  { id := "openai/gpt-5-mini", provider := .openai,
    inputCostPer1M := mkRat 25 100, outputCostPer1M := mkRat 200 100, maxContext := 128000,
    toolCapable := true, multimodal := true, enabled := true },
  { id := "anthropic/claude-sonnet-4-6", provider := .anthropic,
    inputCostPer1M := mkRat 300 100, outputCostPer1M := mkRat 1500 100, maxContext := 200000,
    toolCapable := true, multimodal := true, enabled := true },
  { id := "google/gemini-2.5-pro", provider := .google,
    inputCostPer1M := mkRat 125 100, outputCostPer1M := mkRat 1000 100, maxContext := 1000000,
    toolCapable := true, multimodal := true, enabled := true },
  { id := "openai/gpt-5.2", provider := .openai,
    inputCostPer1M := mkRat 175 100, outputCostPer1M := mkRat 1400 100, maxContext := 128000,
    toolCapable := true, multimodal := true, enabled := true },
  { id := "openai/o3", provider := .openai,
    inputCostPer1M := mkRat 200 100, outputCostPer1M := mkRat 800 100, maxContext := 200000,
    toolCapable := true, multimodal := true, enabled := true },
  { id := "anthropic/claude-opus-4-6", provider := .anthropic,
    inputCostPer1M := mkRat 1500 100, outputCostPer1M := mkRat 7500 100, maxContext := 200000,
    toolCapable := true, multimodal := true, enabled := true }
]

/-- The module-level `modelRegistry` of models.ts, initialised from
`DEFAULT_MODELS` (insertion order preserved, as a JS `Map` does). -/
def modelRegistry : List ModelEntry := DEFAULT_MODELS

/-- JS `id.split('/')[0]` (empty string when absent, matching `?? ''`-style use). -/
def slashHead (id : String) : String :=
  (splitChar '/' id).headD ""

/-- JS `id.split('/')[1]` for registry ids (all registry ids contain `/`). -/
def slashSecond (id : String) : String :=
  ((splitChar '/' id).drop 1).headD ""

/-- `getModelEntry` from models.ts: exact match, then suffix match either
way against the `provider/name` form, then case-insensitive substring
match. -/
def getModelEntry (modelId : String) : Option ModelEntry :=
  match modelRegistry.find? (fun e => e.id = modelId) with
  | some e => some e
  | none =>
    match modelRegistry.find? (fun e =>
        strEndsWith e.id ("/" ++ modelId) ||
        strEndsWith modelId ("/" ++ slashSecond e.id)) with
    | some e => some e
    | none =>
      let normalizedId := strToLower modelId
      modelRegistry.find? (fun e =>
        let normalizedEntryId := strToLower e.id
        strIncludes normalizedEntryId normalizedId ||
        strIncludes normalizedId normalizedEntryId)

/-- `getProviderForModel` from models.ts: provider prefix if present and
known; else registry lookup; else substring heuristics; else openai. -/
def getProviderForModel (modelId : String) : ProviderType :=
  let step2 : ProviderType :=
    match getModelEntry modelId with
    | some entry => entry.provider
    | none =>
      let lowerModelId := strToLower modelId
      if strIncludes lowerModelId "claude" then .anthropic
      else if strIncludes lowerModelId "gpt" || strIncludes lowerModelId "o3" ||
              strIncludes lowerModelId "o1" then .openai
      else if strIncludes lowerModelId "gemini" then .google
      else if strIncludes lowerModelId "deepseek" then .deepseek
      else .openai
  if modelId.data.contains '/' then
    let pre := strToLower (slashHead modelId)
    if pre = "anthropic" then .anthropic
    else if pre = "openai" then .openai
    else if pre = "google" then .google
    else if pre = "deepseek" then .deepseek
    else if pre = "openrouter" then .openrouter
    else step2
  else step2

/-- `calculateCost` from models.ts; unknown models use GPT-5.2 pricing. -/
def calculateCost (modelId : String) (inputTokens outputTokens : ℚ) : ℚ :=
  match getModelEntry modelId with
  | none =>
    (inputTokens / 1000000) * mkRat 175 100 + (outputTokens / 1000000) * mkRat 1400 100
  | some entry =>
    (inputTokens / 1000000) * entry.inputCostPer1M +
    (outputTokens / 1000000) * entry.outputCostPer1M

-- === Configuration (types.ts / config.ts) ===

/-- Per-tier `{primary, fallback}` model ids (`TierModelConfig` in types.ts). -/
structure TierModelConfig where
  primary : String
  fallback : String
deriving DecidableEq, Repr

/-- `classification` settings block of `ClawRouteConfig`. -/
structure ClassificationSettings where
  conservativeMode : Bool
  minConfidence : ℚ
  toolAwareRouting : Bool
deriving DecidableEq, Repr

/-- `escalation` settings block of `ClawRouteConfig` (retryDelayMs only
delays, it does not affect results, so it is omitted). -/
structure EscalationSettings where
  enabled : Bool
  maxRetries : Nat
  onlyRetryBeforeStreaming : Bool
  onlyRetryWithoutToolCalls : Bool
  alwaysFallbackToOriginal : Bool
deriving DecidableEq, Repr

/-- `license` block used by router.ts (v1.1): `enabled` flag and an
optional grace-period end.  `graceUntil` is an epoch-milliseconds
timestamp; `none` models an absent/falsy field. -/
structure LicenseSettings where
  enabled : Bool
  graceUntil : Option Nat
deriving DecidableEq, Repr

/-- `overrides` block.  `globalForceModel : string | null`; session
overrides are never consulted by the router (no session id is extracted
from requests), so they are omitted. -/
structure OverrideSettings where
  globalForceModel : Option String
deriving DecidableEq, Repr

/-- The fields of `ClawRouteConfig` (types.ts) consumed by the classifier,
router, validator and executor.  `models` is total over tiers, matching
the TS type `Record<TaskTier, TierModelConfig>`; `apiKeys` likewise
(`Record<ProviderType, string>`, empty string = unavailable). -/
structure ClawRouteConfig where
  enabled : Bool
  dryRun : Bool
  classification : ClassificationSettings
  escalation : EscalationSettings
  models : TaskTier → TierModelConfig
  overrides : OverrideSettings
  apiKeys : ProviderType → String
  license : LicenseSettings

/-- `hasApiKey` from config.ts: the key is defined and non-empty. -/
def hasApiKey (config : ClawRouteConfig) (provider : ProviderType) : Bool :=
  (config.apiKeys provider).length > 0

/-- `getApiKey` from config.ts. -/
def getApiKey (config : ClawRouteConfig) (provider : ProviderType) : String :=
  config.apiKeys provider

/-- JS truthiness of `overrides.globalForceModel` (null or `''` is falsy). -/
def globalForceTruthy (config : ClawRouteConfig) : Bool :=
  match config.overrides.globalForceModel with
  | some s => s ≠ ""
  | none => false

-- === Requests and messages (types.ts) ===

/-- A `ContentPart` of a multimodal message; only its `type` tag is ever
inspected by the core. -/
structure ContentPart where
  type : String
deriving DecidableEq, Repr

/-- `content: string | null | ContentPart[]`. -/
inductive MessageContent where
  | str (s : String)
  | null
  | parts (ps : List ContentPart)
deriving DecidableEq, Repr

/-- The `function` member of a `ToolCall`. -/
structure ToolCallFunction where
  name : String
  arguments : String
deriving DecidableEq, Repr

/-- A `ToolCall` produced by a model. -/
structure ToolCall where
  id : String
  function : ToolCallFunction
deriving DecidableEq, Repr

/-- A `ChatMessage` (request or response side). -/
structure ChatMessage where
  role : String
  content : MessageContent
  tool_calls : Option (List ToolCall) := none
deriving DecidableEq, Repr

/-- The `function` member of a `ToolDefinition` (only `name` is consumed). -/
structure ToolFunctionDef where
  name : String
deriving DecidableEq, Repr

/-- A `ToolDefinition` supplied in a request. -/
structure ToolDefinition where
  function : ToolFunctionDef
deriving DecidableEq, Repr

/-- `tool_choice?: string | object`. -/
inductive ToolChoice where
  | str (s : String)
  | obj
deriving DecidableEq, Repr

/-- `ChatCompletionRequest` fields consumed by the core. -/
structure ChatCompletionRequest where
  model : String
  messages : List ChatMessage
  tools : Option (List ToolDefinition) := none
  tool_choice : Option ToolChoice := none
  stream : Bool := false
deriving DecidableEq, Repr

/-- `Boolean(request.tools && request.tools.length > 0)`, as computed by
the classifier. -/
def requestHasTools (request : ChatCompletionRequest) : Bool :=
  match request.tools with
  | some ts => ts.length > 0
  | none => false

-- === utils.ts helpers consumed by the core ===

/-- `estimateTokens` from utils.ts: `ceil(text.length / 4)`, 0 for empty. -/
def estimateTokens (text : String) : Nat :=
  if text = "" then 0 else (text.length + 3) / 4

/-- Token estimate for one message's optional tool calls. -/
def messageToolCallsTokens (m : ChatMessage) : Nat :=
  match m.tool_calls with
  | some tcs =>
    (tcs.map (fun tc =>
      estimateTokens tc.function.name + estimateTokens tc.function.arguments)).sum
  | none => 0

/-- `estimateMessagesTokens` from utils.ts: 4 tokens of envelope per
message, plus content tokens for string contents, plus tool-call tokens. -/
def estimateMessagesTokens (messages : List ChatMessage) : Nat :=
  (messages.map (fun m =>
    4 +
    (match m.content with
     | .str s => estimateTokens s
     | _ => 0) +
    messageToolCallsTokens m)).sum

/-- `getLastUserMessage` from utils.ts: scan from the end for a `user`
message with string content; empty string if none. -/
def getLastUserMessage (messages : List ChatMessage) : String :=
  match messages.reverse.find? (fun m =>
      m.role = "user" && match m.content with | .str _ => true | _ => false) with
  | some m =>
    match m.content with
    | .str s => s
    | _ => ""
  | none => ""

-- === Classifier patterns (classifier.ts) ===
-- Each JS regex is embedded as a Bool-valued function with the same
-- acceptance set.  `/i` is handled by lowercasing the subject (patterns
-- are ASCII lowercase); JS `\s` is modelled by `Char.isWhitespace`
-- (identical on ASCII); JS `\w` is `[A-Za-z0-9_]`.

/-- Literal-prefix match: remainder of `s` after `pat`, if `pat` leads. -/
def dropLit : List Char → List Char → Option (List Char)
  | [], s => some s
  | _ :: _, [] => none
  | p :: ps, c :: cs => if p = c then dropLit ps cs else none

/-- `\s*[punct]*$`: optional whitespace then optional punctuation to the end. -/
def wsThenPunct (punct : List Char) (s : List Char) : Bool :=
  (s.dropWhile Char.isWhitespace).all (fun c => punct.contains c)

/-- One alternation group followed by `\s*[punct]*$`. -/
def wordThenTail (words : List String) (punct : String) (s : List Char) : Bool :=
  words.any fun w =>
    match dropLit w.data s with
    | some rest => wsThenPunct punct.data rest
    | none => false

/-- `HEARTBEAT_PATTERNS` from classifier.ts, applied to the trimmed
message (`/i`: subject must be lowercased by the caller). -/
def heartbeatPatternsTest (s : String) : Bool :=
  let l := (strToLower s).data
  wordThenTail ["ping", "status", "alive", "check", "heartbeat", "hey", "hi",
    "hello", "test", "yo"] "?!." l ||
  (match dropLit "are you ".data l with
   | some rest => wordThenTail ["there", "up", "alive", "ok", "ready"] "?!." rest
   | none => false) ||
  wordThenTail ["can you hear me", "you there", "testing"] "?!." l

/-- The emoji alternative of `ACKNOWLEDGMENT_PATTERNS`: every character in
the fixed emoji set (inclusive of the variation selector of the red
heart), at least one character. -/
def emojiOnlyTest (s : String) : Bool :=
  s ≠ "" && s.data.all (fun c =>
    [Char.ofNat 0x1F44D, Char.ofNat 0x1F64F, Char.ofNat 0x1F60A,
     Char.ofNat 0x1F44C, Char.ofNat 0x2705, Char.ofNat 0x2764,
     Char.ofNat 0xFE0F].contains c)

/-- `ACKNOWLEDGMENT_PATTERNS` from classifier.ts. -/
def acknowledgmentPatternsTest (s : String) : Bool :=
  let l := (strToLower s).data
  wordThenTail ["thanks", "thank you", "thx", "ty"] "!." l ||
  wordThenTail ["ok", "okay", "k", "kk", "alright", "sure", "yes", "no",
    "yep", "nope", "yeah", "nah"] "!." l ||
  wordThenTail ["got it", "sounds good", "cool", "great", "nice", "perfect",
    "awesome", "agreed", "right"] "!." l ||
  wordThenTail ["lol", "haha", "hehe", "lmao", "rofl"] "!." l ||
  emojiOnlyTest s

/-- `SIMPLE_QUESTION_PATTERN = /^[^?]{0,100}\?$/`: ends in `?`, no other
`?` anywhere, and at most 100 characters before the final `?`. -/
def simpleQuestionPattern (s : String) : Bool :=
  strEndsWith s "?" && s.data.dropLast.all (fun c => c ≠ '?') &&
  s.length - 1 ≤ 100

/-- `CODE_BLOCK_PATTERN = /```[\s\S]*?```/`: a fence, then (anything)
another fence. -/
def hasCodeBlockGo : List Char → Bool
  | [] => false
  | c :: cs =>
    if ("```".data).isPrefixOf (c :: cs) then
      listContainsSub "```".data ((c :: cs).drop 3)
    else hasCodeBlockGo cs

/-- `CODE_BLOCK_PATTERN.test s`. -/
def hasCodeBlock (s : String) : Bool := hasCodeBlockGo s.data

/-- JS `\w` character class. -/
def isWordCharJS (c : Char) : Bool :=
  ('a' ≤ c && c ≤ 'z') || ('A' ≤ c && c ≤ 'Z') || ('0' ≤ c && c ≤ '9') || c = '_'

/-- `\b` on the right of a match: end of input or a non-word character. -/
def boundaryAfter : List Char → Bool
  | [] => true
  | c :: _ => !isWordCharJS c

/-- A keyword followed by a right word-boundary, at the head of `s`. -/
def matchWordBd (w : String) (s : List Char) : Bool :=
  match dropLit w.data s with
  | some rest => boundaryAfter rest
  | none => false

/-- `.{0,fuel}` then one of `words` then `\b` (JS `.` excludes line
terminators). -/
def gapThenWordScan (words : List String) : Nat → List Char → Bool
  | fuel, s =>
    words.any (fun w => matchWordBd w s) ||
    (match fuel, s with
     | 0, _ => false
     | _, [] => false
     | f + 1, c :: cs =>
       if c = '\n' || c = '\r' then false else gapThenWordScan words f cs)

/-- The alternation of `FRONTIER_KEYWORDS`, tried at one position. -/
def frontierAltAt (s : List Char) : Bool :=
  (["implement", "architect", "design", "refactor", "debug", "optimize",
    "prove", "derive"].any fun w => matchWordBd w s) ||
  (match dropLit "analyze".data s with
   | some rest => gapThenWordScan ["code", "system", "architecture", "algorithm"] 20 rest
   | none => false)

/-- The alternation of `COMPLEX_KEYWORDS`, tried at one position. -/
def complexAltAt (s : List Char) : Bool :=
  (["explain", "compare", "analyze", "research", "summarize", "evaluate",
    "assess", "review"].any fun w => matchWordBd w s) ||
  (match dropLit "write".data s with
   | some rest => gapThenWordScan ["essay", "report", "article", "doc", "documentation"] 10 rest
   | none => false)

/-- Unanchored search with a left `\b` (every alternative starts with a
word character, so the boundary amounts to: previous char is non-word). -/
def scanWithBoundary (test : List Char → Bool) : Bool → List Char → Bool
  | _, [] => false
  | prevWord, c :: cs =>
    (!prevWord && test (c :: cs)) || scanWithBoundary test (isWordCharJS c) cs

/-- `FRONTIER_KEYWORDS.test s` (case-insensitive). -/
def frontierKeywordsTest (s : String) : Bool :=
  scanWithBoundary frontierAltAt false (strToLower s).data

/-- `COMPLEX_KEYWORDS.test s` (case-insensitive). -/
def complexKeywordsTest (s : String) : Bool :=
  scanWithBoundary complexAltAt false (strToLower s).data

-- === Classifier rule checks (classifier.ts) ===

/-- Result shape of `isHeartbeat` / `isSimple`: `{match, confidence}`. -/
structure PatternCheck where
  matched : Bool
  confidence : ℚ
deriving DecidableEq, Repr

/-- Result shape of `isFrontier` / `isComplex`: `{match, confidence, signals}`. -/
structure SignalCheck where
  matched : Bool
  confidence : ℚ
  signals : List String
deriving DecidableEq, Repr

/-- `isHeartbeat` from classifier.ts. -/
def isHeartbeat (lastMessage : String) (messageCount : Nat) (hasTools : Bool) :
    PatternCheck :=
  if heartbeatPatternsTest (strTrim lastMessage) then ⟨true, mkRat 95 100⟩
  else if lastMessage.length < 30 && messageCount ≤ 2 && !hasTools then ⟨true, mkRat 80 100⟩
  else ⟨false, 0⟩

/-- `isSimple` from classifier.ts. -/
def isSimple (lastMessage : String) (messageCount : Nat) (hasTools : Bool) :
    PatternCheck :=
  let trimmed := strTrim lastMessage
  if acknowledgmentPatternsTest trimmed then ⟨true, mkRat 90 100⟩
  else if trimmed.length < 80 && !hasTools &&
      (simpleQuestionPattern trimmed && messageCount ≤ 2) then ⟨true, mkRat 80 100⟩
  else ⟨false, 0⟩

/-- `tool_choice !== undefined && !== null && !== 'none'`. -/
def hasToolChoiceSet (request : ChatCompletionRequest) : Bool :=
  match request.tool_choice with
  | none => false
  | some (.str s) => s ≠ "none"
  | some .obj => true

/-- `isFrontier` from classifier.ts. -/
def isFrontier (request : ChatCompletionRequest) (lastMessage : String)
    (estimatedTokens : Nat) : SignalCheck :=
  let hasTools := requestHasTools request
  let hasToolChoice := hasToolChoiceSet request
  if hasTools && hasToolChoice then ⟨true, mkRat 90 100, ["tools_with_tool_choice"]⟩
  else if hasCodeBlock lastMessage then ⟨true, mkRat 85 100, ["code_blocks"]⟩
  else if lastMessage.length > 1000 && frontierKeywordsTest lastMessage then
    ⟨true, mkRat 80 100, ["long_with_frontier_keywords"]⟩
  else if estimatedTokens > 8000 then ⟨true, mkRat 75 100, ["massive_context"]⟩
  else if request.messages.any (fun m =>
      match m.content with
      | .parts ps => ps.any (fun c => c.type = "image_url")
      | _ => false) then ⟨true, mkRat 80 100, ["multimodal_images"]⟩
  else ⟨false, 0, []⟩

/-- `isComplex` from classifier.ts. -/
def isComplex (request : ChatCompletionRequest) (lastMessage : String)
    (messageCount : Nat) (estimatedTokens : Nat) : SignalCheck :=
  if requestHasTools request then ⟨true, mkRat 85 100, ["tools_present"]⟩
  else if 500 ≤ lastMessage.length && lastMessage.length ≤ 1000 &&
      complexKeywordsTest lastMessage then ⟨true, mkRat 80 100, ["analytical_keywords"]⟩
  else if messageCount > 8 then ⟨true, mkRat 75 100, ["deep_conversation"]⟩
  else if 4000 ≤ estimatedTokens && estimatedTokens ≤ 8000 then
    ⟨true, mkRat 70 100, ["medium_context"]⟩
  else ⟨false, 0, []⟩

-- === classifyRequest (classifier.ts) ===

/-- `ClassificationResult` from types.ts. -/
structure ClassificationResult where
  tier : TaskTier
  confidence : ℚ
  reason : String
  signals : List String
  toolsDetected : Bool
  safeToRetry : Bool
deriving DecidableEq, Repr

/-- The mutable locals `(tier, confidence, reason, signals)` threaded
through the rule groups of `classifyRequest`. -/
structure ClassifyState where
  tier : TaskTier
  confidence : ℚ
  reason : String
  signals : List String
deriving DecidableEq, Repr

/-- Abbreviated rendering of `confidence.toFixed(2)` used only inside
reason strings (rounding mode immaterial to every property proved here). -/
def toFixed2 (q : ℚ) : String :=
  let n : ℤ := round (q * 100)
  let frac := (n % 100).natAbs
  toString (n / 100) ++ "." ++ (if frac < 10 then "0" else "") ++ toString frac

/-- `classifyRequest` from classifier.ts: ordered rule groups, then the
tool-aware and conservative-mode post-adjustments, then `safeToRetry`. -/
def classifyRequest (request : ChatCompletionRequest) (config : ClawRouteConfig) :
    ClassificationResult :=
  let messages := request.messages
  let lastMessage := getLastUserMessage messages
  let messageCount := messages.length
  let estimatedTokens := estimateMessagesTokens messages
  let hasTools := requestHasTools request
  -- model name hint (opportunistic)
  let modelLower := strToLower request.model
  let st0 : ClassifyState :=
    if strIncludes modelLower "heartbeat" || strIncludes modelLower "cron" ||
        strIncludes modelLower "health" then
      ⟨.heartbeat, mkRat 85 100, "model name indicates heartbeat", ["model_name_hint"]⟩
    else ⟨.moderate, mkRat 85 100, "default classification", []⟩
  -- RULE GROUP 1: HEARTBEAT
  let st1 : ClassifyState :=
    if st0.tier = .moderate then
      let hb := isHeartbeat lastMessage messageCount hasTools
      if hb.matched then
        ⟨.heartbeat, hb.confidence, "heartbeat pattern detected",
          st0.signals ++ ["heartbeat_pattern"]⟩
      else st0
    else st0
  -- RULE GROUP 2: FRONTIER
  let st2 : ClassifyState :=
    if st1.tier = .moderate ∨ st1.tier = .heartbeat then
      let fr := isFrontier request lastMessage estimatedTokens
      if fr.matched then
        ⟨.frontier, fr.confidence, "frontier: " ++ String.intercalate ", " fr.signals,
          st1.signals ++ fr.signals⟩
      else st1
    else st1
  -- RULE GROUP 3: COMPLEX
  let st3 : ClassifyState :=
    if st2.tier = .moderate then
      let cx := isComplex request lastMessage messageCount estimatedTokens
      if cx.matched then
        ⟨.complex, cx.confidence, "complex: " ++ String.intercalate ", " cx.signals,
          st2.signals ++ cx.signals⟩
      else st2
    else st2
  -- RULE GROUP 4: SIMPLE
  let st4 : ClassifyState :=
    if st3.tier = .moderate then
      let sc := isSimple lastMessage messageCount hasTools
      if sc.matched then
        ⟨.simple, sc.confidence, "simple acknowledgment or question",
          st3.signals ++ ["simple_pattern"]⟩
      else st3
    else st3
  -- RULE GROUP 5: MODERATE (already default)
  let st5 : ClassifyState :=
    if st4.tier = .moderate ∧ st4.signals = [] then
      { st4 with reason := "general conversation", signals := st4.signals ++ ["default_moderate"] }
    else st4
  -- Tool-aware routing post-adjustment
  let st6 : ClassifyState :=
    if config.classification.toolAwareRouting && hasTools then
      if TIER_ORDER st5.tier < TIER_ORDER .complex then
        ⟨.complex, min st5.confidence (mkRat 80 100),
          "escalated from " ++ st5.tier.str ++ ": tool schemas present",
          st5.signals ++ ["tool_aware_escalation"]⟩
      else st5
    else st5
  -- Conservative mode post-adjustment
  let st7 : ClassifyState :=
    if config.classification.conservativeMode then
      let stA :=
        if st6.confidence < config.classification.minConfidence then
          let nextTier := tierOfOrder (min (TIER_ORDER st6.tier + 1) (TIER_ORDER .frontier))
          if nextTier ≠ st6.tier then
            ⟨nextTier, st6.confidence,
              "escalated from " ++ st6.tier.str ++ ": low confidence (" ++
                toFixed2 st6.confidence ++ ")",
              st6.signals ++ ["low_confidence_escalation"]⟩
          else st6
        else st6
      if stA.confidence < mkRat 50 100 ∧ stA.tier ≠ .frontier then
        ⟨.frontier, stA.confidence,
          "escalated to frontier: very low confidence (" ++ toFixed2 stA.confidence ++ ")",
          stA.signals ++ ["very_low_confidence_escalation"]⟩
      else stA
    else st6
  -- safeToRetry: HEARTBEAT or SIMPLE, and never with tools
  let safeToRetry : Bool :=
    if hasTools then false else (st7.tier == .heartbeat || st7.tier == .simple)
  { tier := st7.tier, confidence := st7.confidence, reason := st7.reason,
    signals := st7.signals, toolsDetected := hasTools, safeToRetry := safeToRetry }

-- === Router (router.ts) ===

/-- `isProEnabled` from router.ts.  The ambient clock (`new Date()`) is the
explicit argument `now`, in epoch milliseconds; `graceUntil` strictly in
the future keeps Pro features on. -/
def isProEnabled (config : ClawRouteConfig) (now : Nat) : Bool :=
  if config.license.enabled then true
  else
    match config.license.graceUntil with
    | some graceEnd => graceEnd > now
    | none => false

/-- `shouldFreeModerateUseOriginal` from router.ts: Free plan + MODERATE +
tools detected → use the original model. -/
def shouldFreeModerateUseOriginal (tier : TaskTier) (toolsDetected : Bool)
    (config : ClawRouteConfig) (now : Nat) : Bool :=
  if isProEnabled config now then false
  else if tier ≠ TaskTier.moderate then false
  else toolsDetected

/-- `shouldFreeTierUseOriginal` from router.ts: Free plan + COMPLEX or
FRONTIER → use the original model. -/
def shouldFreeTierUseOriginal (tier : TaskTier) (config : ClawRouteConfig)
    (now : Nat) : Bool :=
  if isProEnabled config now then false
  else tier = TaskTier.complex || tier = TaskTier.frontier

/-- `RoutingDecision` from types.ts. -/
structure RoutingDecision where
  originalModel : String
  routedModel : String
  tier : TaskTier
  reason : String
  confidence : ℚ
  isDryRun : Bool
  isOverride : Bool
  isPassthrough : Bool
  estimatedSavingsUsd : ℚ
  safeToRetry : Bool
deriving DecidableEq, Repr

/-- `routeRequest` from router.ts.  The triple carried through steps 2-4
is `(routedModel, reason, isPassthrough)`; `models` is total over tiers
(TS `Record<TaskTier, TierModelConfig>`), so the defensive `no config,
passthrough` branch of the source is unreachable and not represented. -/
def routeRequest (request : ChatCompletionRequest)
    (classification : ClassificationResult) (config : ClawRouteConfig)
    (now : Nat) : RoutingDecision :=
  let originalModel := request.model
  let estimatedTokens := estimateMessagesTokens request.messages
  let estimatedOutputTokens := min estimatedTokens 4000
  -- 1. ClawRoute disabled → passthrough decision
  if !config.enabled then
    { originalModel := originalModel, routedModel := originalModel,
      tier := classification.tier, reason := "ClawRoute disabled",
      confidence := classification.confidence, isDryRun := false,
      isOverride := false, isPassthrough := true, estimatedSavingsUsd := 0,
      safeToRetry := classification.safeToRetry }
  else
    -- 2. global force override
    let isOverride := globalForceTruthy config
    let step4 : String × String × Bool :=
      if isOverride then
        let m := (config.overrides.globalForceModel).getD ""
        (m, "global override: " ++ m, false)
      else
        -- 4. normal routing based on tier
        let tier := classification.tier
        let tierConfig := config.models tier
        let proEnabled := isProEnabled config now
        if shouldFreeTierUseOriginal tier config now then
          (originalModel,
           "tier " ++ tier.str ++ ": Free plan - complex routing requires Pro",
           true)
        else if shouldFreeModerateUseOriginal tier classification.toolsDetected
            config now then
          (originalModel,
           "tier " ++ tier.str ++ ": Free plan - tool-aware routing requires Pro",
           true)
        else if hasApiKey config (getProviderForModel tierConfig.primary) then
          (tierConfig.primary,
           "tier " ++ tier.str ++ ": primary model" ++
             (if proEnabled then "" else " (Free)"),
           false)
        else if hasApiKey config (getProviderForModel tierConfig.fallback) then
          (tierConfig.fallback,
           "tier " ++ tier.str ++ ": fallback model (primary unavailable)",
           false)
        else
          (originalModel,
           "tier " ++ tier.str ++ ": no API keys for configured models, passthrough",
           true)
    let routedModel1 := step4.1
    let reason1 := step4.2.1
    let isPassthrough := step4.2.2
    -- 5. dry-run: use original model but log what would have been used
    let isDryRun := config.dryRun
    let routedModel := if isDryRun then originalModel else routedModel1
    let reason :=
      if isDryRun then "dry-run: would route to " ++ routedModel1 else reason1
    -- 6. estimated savings
    let originalCost := calculateCost originalModel estimatedTokens estimatedOutputTokens
    let routedCost := calculateCost routedModel estimatedTokens estimatedOutputTokens
    let estimatedSavingsUsd := max 0 (originalCost - routedCost)
    { originalModel := originalModel, routedModel := routedModel,
      tier := classification.tier, reason := reason,
      confidence := classification.confidence, isDryRun := isDryRun,
      isOverride := isOverride, isPassthrough := isPassthrough,
      estimatedSavingsUsd := estimatedSavingsUsd,
      safeToRetry := classification.safeToRetry }

/-- The `tierOrder` array local to `getEscalatedModel`. -/
def tierOrderList : List TaskTier :=
  [.heartbeat, .simple, .moderate, .complex, .frontier]

/-- The scan of `getEscalatedModel` over the strictly-higher tiers: first
tier whose primary (else fallback) provider has a key. -/
def escalFind (config : ClawRouteConfig) : List TaskTier → Option (String × TaskTier)
  | [] => none
  | t :: rest =>
    let tierConfig := config.models t
    if hasApiKey config (getProviderForModel tierConfig.primary) then
      some (tierConfig.primary, t)
    else if hasApiKey config (getProviderForModel tierConfig.fallback) then
      some (tierConfig.fallback, t)
    else escalFind config rest

/-- `getEscalatedModel` from router.ts. -/
def getEscalatedModel (currentTier : TaskTier) (config : ClawRouteConfig) :
    Option (String × TaskTier) :=
  let currentIndex := tierOrderList.indexOf currentTier
  if currentIndex + 1 ≥ tierOrderList.length then none
  else escalFind config (tierOrderList.drop (currentIndex + 1))

-- === JSON acceptance (utils.ts safeJsonParse over the JS builtin) ===

/-- Skip JSON insignificant whitespace. -/
def jsonSkipWs (s : List Char) : List Char :=
  s.dropWhile (fun c => c = ' ' || c = '\t' || c = '\n' || c = '\r')

/-- Consume a JSON string body after the opening quote. -/
def jsonStringRest : Nat → List Char → Option (List Char)
  | 0, _ => none
  | _, [] => none
  | fuel + 1, c :: cs =>
    if c = '"' then some cs
    else if c = '\\' then
      match cs with
      | [] => none
      | e :: cs' =>
        if e = 'u' then
          if (cs'.take 4).length = 4 && (cs'.take 4).all (fun h => h.isDigit ||
              ('a' ≤ h && h ≤ 'f') || ('A' ≤ h && h ≤ 'F')) then
            jsonStringRest fuel (cs'.drop 4)
          else none
        else if ['"', '\\', '/', 'b', 'f', 'n', 'r', 't'].contains e then
          jsonStringRest fuel cs'
        else none
    else jsonStringRest fuel cs

/-- Consume a JSON number at the head. -/
def jsonNumberRest (s : List Char) : Option (List Char) :=
  let s1 := if s.headD ' ' = '-' then s.drop 1 else s
  let intPart := s1.takeWhile Char.isDigit
  if intPart.isEmpty then none
  else if intPart.length > 1 && intPart.headD ' ' = '0' then none
  else
    let s2 := s1.drop intPart.length
    let s3 :=
      if s2.headD ' ' = '.' then
        let fr := (s2.drop 1).takeWhile Char.isDigit
        if fr.isEmpty then none else some (s2.drop (1 + fr.length))
      else some s2
    match s3 with
    | none => none
    | some s4 =>
      if s4.headD ' ' = 'e' || s4.headD ' ' = 'E' then
        let s5 := s4.drop 1
        let s6 := if s5.headD ' ' = '+' || s5.headD ' ' = '-' then s5.drop 1 else s5
        let ex := s6.takeWhile Char.isDigit
        if ex.isEmpty then none else some (s6.drop ex.length)
      else some s4

mutual
/-- Consume one JSON value; also report whether it is the literal `null`. -/
def jsonValueRest : Nat → List Char → Option (Bool × List Char)
  | 0, _ => none
  | fuel + 1, s =>
    let s := jsonSkipWs s
    match s with
    | [] => none
    | c :: cs =>
      if c = '"' then (jsonStringRest (fuel + 1) cs).map (fun r => (false, r))
      else if c = '{' then (jsonMembersRest fuel (jsonSkipWs cs) true).map (fun r => (false, r))
      else if c = '[' then (jsonElementsRest fuel (jsonSkipWs cs) true).map (fun r => (false, r))
      else
        match dropLit "null".data s with
        | some r => some (true, r)
        | none =>
          match dropLit "true".data s with
          | some r => some (false, r)
          | none =>
            match dropLit "false".data s with
            | some r => some (false, r)
            | none => (jsonNumberRest s).map (fun r => (false, r))

/-- Consume object members up to and including the closing brace.
`first` marks that no member has been consumed yet. -/
def jsonMembersRest : Nat → List Char → Bool → Option (List Char)
  | 0, _, _ => none
  | fuel + 1, s, first =>
    match s with
    | [] => none
    | c :: cs =>
      if c = '}' && first then some cs
      else
        let s1 := if first then s else (if c = ',' then jsonSkipWs cs else [])
        match s1 with
        | '"' :: body =>
          match jsonStringRest (fuel + 1) body with
          | none => none
          | some afterKey =>
            match jsonSkipWs afterKey with
            | ':' :: afterColon =>
              match jsonValueRest fuel afterColon with
              | none => none
              | some (_, afterVal) =>
                match jsonSkipWs afterVal with
                | '}' :: r => some r
                | r => jsonMembersRest fuel r false
            | _ => none
        | _ => none

/-- Consume array elements up to and including the closing bracket. -/
def jsonElementsRest : Nat → List Char → Bool → Option (List Char)
  | 0, _, _ => none
  | fuel + 1, s, first =>
    match s with
    | [] => none
    | c :: cs =>
      if c = ']' && first then some cs
      else
        let s1 := if first then some s else (if c = ',' then some (jsonSkipWs cs) else none)
        match s1 with
        | none => none
        | some s2 =>
          match jsonValueRest fuel s2 with
          | none => none
          | some (_, afterVal) =>
            match jsonSkipWs afterVal with
            | ']' :: r => some r
            | r => jsonElementsRest fuel r false
end

/-- Modelled from the spec: the JS builtin `JSON.parse` (not repository
code) as used by utils.ts `safeJsonParse`, which returns `null` exactly
when parsing throws or the parsed value is the JSON literal `null`.
`true` here means `safeJsonParse(s) === null`. -/
def safeJsonParseIsNull (s : String) : Bool :=
  match jsonValueRest (s.length + 1) s.data with
  | none => true
  | some (isNull, rest) => !(jsonSkipWs rest).isEmpty || isNull

-- === Validator (validator.ts) ===

/-- One element of `responseBody.choices`. -/
structure ResponseChoice where
  index : Nat := 0
  message : Option ChatMessage
  finish_reason : Option String := none
deriving DecidableEq, Repr

/-- The `usage` member of a response body. -/
structure UsageInfo where
  prompt_tokens : Nat
  completion_tokens : Nat
deriving DecidableEq, Repr

/-- The parsed response body consumed by `validateResponse`.  `error`
models the optional `error` field (checked for truthiness); `choices` and
`usage` are optional as on the wire. -/
structure ChatCompletionResponseBody where
  error : Option String := none
  choices : Option (List ResponseChoice) := none
  usage : Option UsageInfo := none
deriving DecidableEq, Repr

/-- `ValidationResult` from types.ts. -/
structure ValidationResult where
  valid : Bool
  reason : String
  hadToolCalls : Bool
deriving DecidableEq, Repr

/-- JS truthiness of the `error` field (`'error' in body && body.error`). -/
def errorTruthy (body : ChatCompletionResponseBody) : Bool :=
  match body.error with
  | some e => e ≠ ""
  | none => false

/-- The tool-call loop of `validateResponse` step 6: first offending
result, if any. -/
def validateToolCalls (toolNames : List String) : List ToolCall → Option ValidationResult
  | [] => none
  | tc :: rest =>
    if !(toolNames.contains tc.function.name) then
      some { valid := false, reason := "unknown_tool_name: " ++ tc.function.name,
             hadToolCalls := true }
    else
      let argsJson := tc.function.arguments
      if argsJson ≠ "" && strTrim argsJson ≠ "" &&
          safeJsonParseIsNull argsJson && argsJson ≠ "{}" then
        some { valid := false, reason := "invalid_tool_call_json", hadToolCalls := true }
      else validateToolCalls toolNames rest

/-- `validateResponse` from validator.ts.  `respOk`/`respStatus` stand for
`response.ok` / `response.status` of the fetch `Response`. -/
def validateResponse (respOk : Bool) (respStatus : Nat)
    (responseBody : Option ChatCompletionResponseBody)
    (request : ChatCompletionRequest) (tier : TaskTier) : ValidationResult :=
  -- 1. HTTP status
  if !respOk then
    { valid := false, reason := "http_error_" ++ toString respStatus,
      hadToolCalls := false }
  else
    match responseBody with
    -- 2. body failed to parse
    | none => { valid := false, reason := "invalid_json_body", hadToolCalls := false }
    | some body =>
      -- 3. error field in the body
      if errorTruthy body then
        { valid := false, reason := "api_error_response", hadToolCalls := false }
      else
        -- 4. choices / first choice / message
        match body.choices with
        | none => { valid := false, reason := "no_choices", hadToolCalls := false }
        | some choices =>
          match choices with
          | [] => { valid := false, reason := "no_choices", hadToolCalls := false }
          | firstChoice :: _ =>
            match firstChoice.message with
            | none => { valid := false, reason := "no_message", hadToolCalls := false }
            | some message =>
              -- 5. tool calls present?
              let toolCalls := message.tool_calls.getD []
              let hadToolCalls := toolCalls.length > 0
              -- 6. validate tool calls when request declared tools
              let step6 : Option ValidationResult :=
                if hadToolCalls && requestHasTools request then
                  validateToolCalls
                    ((request.tools.getD []).map (fun t => t.function.name)) toolCalls
                else none
              match step6 with
              | some bad => bad
              | none =>
                -- 7. suspiciously short content (non-heartbeat, no tool calls)
                let content :=
                  match message.content with
                  | .str s => s
                  | _ => ""
                if tier ≠ TaskTier.heartbeat && !hadToolCalls &&
                    content.length < 15 && strTrim content ≠ "" then
                  { valid := false, reason := "suspiciously_short_response",
                    hadToolCalls := false }
                else { valid := true, reason := "ok", hadToolCalls := hadToolCalls }

-- === Executor (executor.ts) ===

/-- `canEscalate` from executor.ts (v1.1 plan gating, used on the
streaming path): Pro always; Free only from HEARTBEAT. -/
def canEscalate (currentTier : TaskTier) (config : ClawRouteConfig) (now : Nat) : Bool :=
  if isProEnabled config now then true
  else currentTier = TaskTier.heartbeat

/-- One upstream dispatch as observed by the executor: either the fetch
throws (network/transport), or it yields a response with `ok`/`status`
and a body.  `parsed` is the oracle's rendering of
`safeJsonParse(bodyText)` into the structured body type (the JS
deserialization itself is not re-modelled); no theorem below relies on a
relation between `bodyText` and `parsed`. -/
inductive DispatchOutcome where
  | netError
  | http (ok : Bool) (status : Nat) (bodyText : String)
      (parsed : Option ChatCompletionResponseBody)
deriving DecidableEq

/-- The executor-visible projection of a fetch `Response`.  `bodyText` is
the payload text; `bodyConsumed` records that the object's body stream
has already been read (`response.text()` was awaited on it and it was
not replaced by a fresh `new Response(bodyText, …)`).  Per the Fetch
spec, extracting a body from such a disturbed stream — as the
`new Response(response.body, …)` decoration does — throws a TypeError. -/
structure UpstreamResponse where
  ok : Bool
  status : Nat
  bodyText : String
  bodyConsumed : Bool
deriving DecidableEq, Repr

/-- Opening brace as data (used when building literal JSON bodies). -/
def obr : String := "\x7b"

/-- Closing brace as data. -/
def cbr : String := "\x7d"

/-- `createErrorResponse` from executor.ts: HTTP 500 with a normalized
JSON error body. -/
def createErrorResponse (message : String) : UpstreamResponse :=
  { ok := false, status := 500,
    bodyText := obr ++ "\"error\":" ++ obr ++ "\"message\":\"" ++ message ++
      "\",\"type\":\"server_error\",\"code\":\"internal_error\"" ++ cbr ++ cbr,
    bodyConsumed := false }

/-- The per-request inputs of `executeRequest`, with the provider fleet
abstracted as an oracle giving the outcome of the n-th dispatch. -/
structure ExecEnv where
  request : ChatCompletionRequest
  routingDecision : RoutingDecision
  config : ClawRouteConfig
  oracle : Nat → DispatchOutcome

/-- The mutable locals of the `executeRequest` retry loop. -/
structure NSLoopState where
  currentModel : String
  currentTier : TaskTier
  escalationChain : List String
  escalated : Bool
  responseBody : Option ChatCompletionResponseBody
  hadToolCalls : Bool

/-- Loop exit: the `response` variable at the `break`, the final locals,
and (instrumentation) the total number of upstream dispatches made. -/
structure NSLoopResult where
  response : UpstreamResponse
  state : NSLoopState
  dispatches : Nat

/-- Escalation step common to all retry sites (lines 249-258, 277-286,
304-313 of executor.ts). -/
def escalateState (st : NSLoopState) (m : String) (t : TaskTier) : NSLoopState :=
  { st with
    currentModel := m
    currentTier := t
    escalationChain := st.escalationChain ++ [m]
    escalated := true }

/-- Switch to the original model and record it on the chain (the
`alwaysFallbackToOriginal` paths). -/
def fallbackState (st : NSLoopState) (originalModel : String) : NSLoopState :=
  { st with
    currentModel := originalModel
    escalationChain := st.escalationChain ++ [originalModel] }

/-- The fall-back tail of the catch branch (lines 316-330): the dispatch
to the original model has its own try/catch. -/
def nsCatchFallback (env : ExecEnv) (st : NSLoopState) (k : Nat) : NSLoopResult :=
  if env.config.escalation.alwaysFallbackToOriginal then
    let st := fallbackState st env.routingDecision.originalModel
    match env.oracle k with
    | .http ok2 status2 body2 _ => ⟨⟨ok2, status2, body2, false⟩, st, k + 1⟩
    | .netError => ⟨createErrorResponse "All models failed", st, k + 1⟩
  else ⟨createErrorResponse "Request failed", st, k⟩

/-- Exits of one iteration of the executor retry loop: `done` is a
`break` with the final response, `retry` is a `continue` after an
escalation (only emitted when retries remain). -/
inductive NSStepRes where
  | done (r : NSLoopResult)
  | retry (st : NSLoopState) (k : Nat)

/-- The fall-back tail of the non-streaming HTTP-error branch (lines
289-295): one dispatch to the original model when configured; its throw
lands in the surrounding catch (lines 297-330), inlined here. -/
def nsHttpErrFallbackStep (env : ExecEnv) (hasRetries : Bool)
    (st : NSLoopState) (k : Nat) (status : Nat) (bodyText : String) : NSStepRes :=
  if env.config.escalation.alwaysFallbackToOriginal &&
      st.currentModel ≠ env.routingDecision.originalModel then
    let stf := fallbackState st env.routingDecision.originalModel
    match env.oracle k with
    | .http ok2 status2 body2 _ => .done ⟨⟨ok2, status2, body2, false⟩, stf, k + 1⟩
    | .netError =>
      -- the fall-back dispatch threw: catch (lines 297-330)
      if env.config.escalation.enabled && hasRetries &&
          env.routingDecision.safeToRetry then
        match getEscalatedModel stf.currentTier env.config with
        | some (m, t) => .retry (escalateState stf m t) (k + 1)
        | none => .done (nsCatchFallback env stf (k + 1))
      else .done (nsCatchFallback env stf (k + 1))
  else .done ⟨⟨false, status, bodyText, false⟩, st, k⟩

/-- One iteration of the non-streaming `while (retryCount <= maxRetries)`
body of `executeRequest` (lines 222-332).  `hasRetries` is the guard
`retryCount < maxRetries`; `k` is the oracle index of this iteration's
dispatch.  The TS `catch` clause (lines 297-330) is inlined at each site
that can throw. -/
def execNSStep (env : ExecEnv) (hasRetries : Bool) (st : NSLoopState)
    (k : Nat) : NSStepRes :=
  match env.oracle k with
  | .netError =>
    -- catch (lines 297-330): escalate when allowed, else fall back
    if env.config.escalation.enabled && hasRetries &&
        env.routingDecision.safeToRetry then
      match getEscalatedModel st.currentTier env.config with
      | some (m, t) => .retry (escalateState st m t) (k + 1)
      | none => .done (nsCatchFallback env st (k + 1))
    else .done (nsCatchFallback env st (k + 1))
  | .http ok status bodyText parsed =>
    if ok then
      -- parse body, validate (lines 227-269)
      let st := { st with responseBody := parsed }
      let validation := validateResponse true status parsed env.request st.currentTier
      let st := { st with hadToolCalls := validation.hadToolCalls }
      if validation.valid then
        -- valid: falls to line 264, which recreates the response from the
        -- body text (fresh, unconsumed) and breaks
        .done ⟨⟨true, status, bodyText, false⟩, st, k + 1⟩
      else if validation.hadToolCalls || !env.routingDecision.safeToRetry ||
          !env.config.escalation.onlyRetryWithoutToolCalls then
        -- can't retry (tool calls may have been executed): break at line
        -- 245 WITHOUT recreating — the response kept here is the original
        -- fetch Response whose body `text()` already consumed
        .done ⟨⟨true, status, bodyText, true⟩, st, k + 1⟩
      else if env.config.escalation.enabled && hasRetries then
        match getEscalatedModel st.currentTier env.config with
        | some (m, t) => .retry (escalateState st m t) (k + 1)
        | none => .done ⟨⟨true, status, bodyText, false⟩, st, k + 1⟩
      else .done ⟨⟨true, status, bodyText, false⟩, st, k + 1⟩
    else
      -- HTTP error (lines 270-295)
      if env.config.escalation.enabled && hasRetries &&
          env.routingDecision.safeToRetry then
        match getEscalatedModel st.currentTier env.config with
        | some (m, t) => .retry (escalateState st m t) (k + 1)
        | none => nsHttpErrFallbackStep env hasRetries st (k + 1) status bodyText
      else nsHttpErrFallbackStep env hasRetries st (k + 1) status bodyText

/-- The non-streaming retry loop: iterate `execNSStep`.
`rl = maxRetries - retryCount` is the number of retries left; every
`retry` is emitted under `hasRetries = (0 < rl)`, so the `rl = 0` retry
arm below is unreachable. -/
def execNSLoop (env : ExecEnv) : Nat → NSLoopState → Nat → NSLoopResult
  | rl, st, k =>
    match rl, execNSStep env (decide (0 < rl)) st k with
    | _, .done r => r
    | 0, .retry st' k' => ⟨createErrorResponse "unreachable", st', k'⟩
    | n + 1, .retry st' k' => execNSLoop env n st' k'

/-- The result of `executeRequest` (types.ts `ExecutionResult`), with the
HTTP response projected to `(ok, status, bodyText)`, `responseTimeMs`
(wall clock) dropped, and the dispatch count kept as instrumentation. -/
structure ExecutionResultModel where
  respOk : Bool
  respStatus : Nat
  respBodyText : String
  routingDecision : RoutingDecision
  actualModel : String
  escalated : Bool
  escalationChain : List String
  inputTokens : Nat
  outputTokens : Nat
  originalCostUsd : ℚ
  actualCostUsd : ℚ
  savingsUsd : ℚ
  hadToolCalls : Bool
  dispatches : Nat

/-- `buildExecutionResult` from executor.ts. -/
def buildExecutionResult (resp : UpstreamResponse)
    (routingDecision : RoutingDecision) (actualModel : String)
    (escalated : Bool) (escalationChain : List String)
    (inputTokens outputTokens : Nat) (hadToolCalls : Bool)
    (dispatches : Nat) : ExecutionResultModel :=
  let originalCostUsd :=
    calculateCost routingDecision.originalModel inputTokens outputTokens
  let actualCostUsd := calculateCost actualModel inputTokens outputTokens
  let savingsUsd := max 0 (originalCostUsd - actualCostUsd)
  { respOk := resp.ok, respStatus := resp.status, respBodyText := resp.bodyText,
    routingDecision := routingDecision, actualModel := actualModel,
    escalated := escalated, escalationChain := escalationChain,
    inputTokens := inputTokens, outputTokens := outputTokens,
    originalCostUsd := originalCostUsd, actualCostUsd := actualCostUsd,
    savingsUsd := savingsUsd, hadToolCalls := hadToolCalls,
    dispatches := dispatches }

/-- The loop locals at entry (executor.ts lines 60-73): the routed model,
the decision's tier, a chain holding the initial model, nothing parsed. -/
def initialNSState (rd : RoutingDecision) : NSLoopState :=
  { currentModel := rd.routedModel, currentTier := rd.tier,
    escalationChain := [rd.routedModel], escalated := false,
    responseBody := none, hadToolCalls := false }

/-- `maxRetries` (executor.ts lines 81, 219). -/
def nsMaxRetries (config : ClawRouteConfig) : Nat :=
  if config.escalation.enabled then config.escalation.maxRetries else 0

/-- The post-loop bookkeeping of `executeRequest`, non-streaming path
(lines 334-367): extract usage tokens and the late tool-call flag from
the last parsed body and assemble the `buildExecutionResult` value.  The
header decoration (line 351) that can throw first is modelled separately
by `executeRequestNSResult`; this function is the result produced when
that decoration succeeds. -/
def executeRequestNS (env : ExecEnv) : ExecutionResultModel :=
  let rd := env.routingDecision
  let r := execNSLoop env (nsMaxRetries env.config) (initialNSState rd) 0
  -- `if (responseBody?.usage) { inputTokens = ...; outputTokens = ... }`
  let inputTokens :=
    match r.state.responseBody with
    | some b =>
      match b.usage with
      | some u => u.prompt_tokens
      | none => estimateMessagesTokens env.request.messages
    | none => estimateMessagesTokens env.request.messages
  let outputTokens :=
    match r.state.responseBody with
    | some b =>
      match b.usage with
      | some u => u.completion_tokens
      | none => 0
    | none => 0
  -- `if (responseBody?.choices?.[0]?.message?.tool_calls) hadToolCalls = true`
  -- (truthiness of the array: any present array, even empty, counts)
  let hadToolCalls :=
    r.state.hadToolCalls ||
    (match r.state.responseBody with
     | some b =>
       match b.choices with
       | some (c :: _) =>
         (match c.message with
          | some m => m.tool_calls.isSome
          | none => false)
       | _ => false
     | none => false)
  buildExecutionResult r.response rd r.state.currentModel r.state.escalated
    r.state.escalationChain inputTokens outputTokens hadToolCalls r.dispatches

/-- `executeRequest`, non-streaming path, end to end (lines 214-368).
Lines 346-355 decorate the response via
`new Response(response!.body, headers)`: when the loop exited through the
line-245 break, `response` is the original fetch Response whose body
stream `text()` (line 228) already consumed, and extracting a body from
that disturbed stream throws a TypeError (Fetch spec) — `executeRequest`
rejects and no `ExecutionResult` is produced.  `.error ()` models that
rejection; `.ok` carries the assembled result. -/
def executeRequestNSResult (env : ExecEnv) : Except Unit ExecutionResultModel :=
  let r := execNSLoop env (nsMaxRetries env.config)
    (initialNSState env.routingDecision) 0
  if r.response.bodyConsumed then Except.error ()
  else Except.ok (executeRequestNS env)

/-- `executePassthrough` from executor.ts (lines 493-509): one dispatch of
the original request when its provider has a key; errors become a 500
response.  `k` is the oracle index of its dispatch; the second component
is the next unused index (so `k` itself when no dispatch happens). -/
def executePassthrough (env : ExecEnv) (k : Nat) : UpstreamResponse × Nat :=
  let provider := getProviderForModel env.request.model
  if getApiKey env.config provider = "" then
    (createErrorResponse ("No API key for provider: " ++ provider.str), k)
  else
    match env.oracle k with
    | .http ok s b _ => (⟨ok, s, b, false⟩, k + 1)
    | .netError => (createErrorResponse "Passthrough failed", k + 1)

/-- The `/v1/chat/completions` handler of index.ts around the executor
(enabled, non-streaming path; lines 339-394): a resolved `executeRequest`
has its response returned to the client; a rejected one is caught at line
375 and answered by `executePassthrough` — one further upstream dispatch
of the original request.  The value is the response sent to the client
and the total number of upstream dispatches made for the request. -/
def handleChatCompletionsNS (env : ExecEnv) : UpstreamResponse × Nat :=
  match executeRequestNSResult env with
  | Except.ok res => (⟨res.respOk, res.respStatus, res.respBodyText, false⟩, res.dispatches)
  | Except.error _ =>
    let r := execNSLoop env (nsMaxRetries env.config)
      (initialNSState env.routingDecision) 0
    executePassthrough env r.dispatches

/-- The pre-stream fall-back of the streaming HTTP-error branch (lines
111-117), with the `catch` clause (lines 122-157) inlined at the
dispatch that can throw. -/
def sHttpErrFallbackStep (env : ExecEnv) (hasRetries : Bool)
    (st : NSLoopState) (k : Nat) (status : Nat) (bodyText : String) : NSStepRes :=
  if env.config.escalation.alwaysFallbackToOriginal &&
      st.currentModel ≠ env.routingDecision.originalModel then
    let stf := fallbackState st env.routingDecision.originalModel
    match env.oracle k with
    | .http ok2 status2 body2 _ => .done ⟨⟨ok2, status2, body2, false⟩, stf, k + 1⟩
    | .netError =>
      -- the fall-back dispatch threw: catch (lines 122-157)
      if env.config.escalation.enabled && hasRetries &&
          env.routingDecision.safeToRetry then
        match getEscalatedModel stf.currentTier env.config with
        | some (m, t) => .retry (escalateState stf m t) (k + 1)
        | none => .done (nsCatchFallback env stf (k + 1))
      else .done (nsCatchFallback env stf (k + 1))
  else .done ⟨⟨false, status, bodyText, false⟩, st, k⟩

/-- One iteration of the streaming `while (retryCount <= maxRetries)`
body of `executeRequest` (lines 83-158): retry only before any byte is
streamed.  The pre-stream HTTP-error guard additionally consults
`canEscalate`; the inlined `catch` (lines 122-157) does not. -/
def execSStep (env : ExecEnv) (now : Nat) (hasRetries : Bool)
    (st : NSLoopState) (k : Nat) : NSStepRes :=
  match env.oracle k with
  | .netError =>
    -- catch (lines 122-157)
    if env.config.escalation.enabled && hasRetries &&
        env.routingDecision.safeToRetry then
      match getEscalatedModel st.currentTier env.config with
      | some (m, t) => .retry (escalateState st m t) (k + 1)
      | none => .done (nsCatchFallback env st (k + 1))
    else .done (nsCatchFallback env st (k + 1))
  | .http ok status bodyText _ =>
    if !ok then
      -- pre-stream HTTP error (lines 89-117); gated by canEscalate
      if env.config.escalation.enabled && hasRetries &&
          env.routingDecision.safeToRetry &&
          canEscalate st.currentTier env.config now then
        match getEscalatedModel st.currentTier env.config with
        | some (m, t) => .retry (escalateState st m t) (k + 1)
        | none => sHttpErrFallbackStep env hasRetries st (k + 1) status bodyText
      else sHttpErrFallbackStep env hasRetries st (k + 1) status bodyText
    else .done ⟨⟨true, status, bodyText, false⟩, st, k + 1⟩

/-- The streaming retry loop: iterate `execSStep`.  As in `execNSLoop`,
the `rl = 0` retry arm is unreachable. -/
def execSLoop (env : ExecEnv) (now : Nat) : Nat → NSLoopState → Nat → NSLoopResult
  | rl, st, k =>
    match rl, execSStep env now (decide (0 < rl)) st k with
    | _, .done r => r
    | 0, .retry st' k' => ⟨createErrorResponse "unreachable", st', k'⟩
    | n + 1, .retry st' k' => execSLoop env now n st' k'

/-- `executeRequest`, streaming path (lines 75-213).  On an OK response
the Stream Pump forwards the bytes unmodified (body identity preserved);
the `StreamResult` counters are assigned in a later microtask, after
`buildExecutionResult` has already run, so the assembled result always
carries the initial estimates (`outputTokens = 0`, `hadToolCalls =
false`). -/
def executeRequestStream (env : ExecEnv) (now : Nat) : ExecutionResultModel :=
  let rd := env.routingDecision
  let r := execSLoop env now (nsMaxRetries env.config) (initialNSState rd) 0
  let inputTokens := estimateMessagesTokens env.request.messages
  buildExecutionResult r.response rd r.state.currentModel r.state.escalated
    r.state.escalationChain inputTokens 0 false r.dispatches

-- ======================================================================
-- Theorems
-- ======================================================================

/-- C2: for every request and configuration, `classifyRequest` returns
`safeToRetry = true` exactly when the final tier is Heartbeat or Simple
and the request's tools array is absent or empty; in particular, with a
non-empty tools array, `safeToRetry = false`. -/
theorem classify_safeToRetry_iff (request : ChatCompletionRequest)
    (config : ClawRouteConfig) :
    (classifyRequest request config).safeToRetry = true ↔
    (((classifyRequest request config).tier = TaskTier.heartbeat ∨
      (classifyRequest request config).tier = TaskTier.simple) ∧
     requestHasTools request = false) := by
  have hTools : (classifyRequest request config).toolsDetected =
      requestHasTools request := rfl
  have hSafe : (classifyRequest request config).safeToRetry =
      (if requestHasTools request then false
       else ((classifyRequest request config).tier == TaskTier.heartbeat ||
             (classifyRequest request config).tier == TaskTier.simple)) := rfl
  rw [hSafe]
  cases h : requestHasTools request <;>
    simp [Bool.or_eq_true, beq_iff_eq]

/-- C2 witness: a concrete heartbeat request without tools is safe to
retry, via `classify_safeToRetry_iff`. -/
theorem classify_safeToRetry_iff_witness :
    (classifyRequest
      { model := "m", messages := [{ role := "user", content := .str "ping" }] }
      { enabled := true, dryRun := false,
        classification :=
          { conservativeMode := false, minConfidence := mkRat 70 100, toolAwareRouting := true },
        escalation :=
          { enabled := true, maxRetries := 2, onlyRetryBeforeStreaming := true,
            onlyRetryWithoutToolCalls := true, alwaysFallbackToOriginal := true },
        models := fun _ => ⟨"openai/gpt-5-mini", "google/gemini-2.5-flash"⟩,
        overrides := { globalForceModel := none },
        apiKeys := fun _ => "k",
        license := { enabled := true, graceUntil := none } }).safeToRetry = true := by
  rw [classify_safeToRetry_iff]
  refine ⟨Or.inl ?_, by decide⟩
  decide

/-- C5: with the proxy enabled and a non-empty `globalForceModel`, the
decision is flagged `isOverride` and routes to the forced model,
except that dry-run rewrites `routedModel` back to the original model
while the decision stays flagged with `isDryRun`. -/
theorem routeRequest_globalOverride (request : ChatCompletionRequest)
    (classification : ClassificationResult) (config : ClawRouteConfig)
    (now : Nat) (s : String) (hEn : config.enabled = true)
    (hGfm : config.overrides.globalForceModel = some s) (hNe : s ≠ "") :
    (routeRequest request classification config now).isOverride = true ∧
    (routeRequest request classification config now).isDryRun = config.dryRun ∧
    (routeRequest request classification config now).routedModel =
      (if config.dryRun then request.model else s) := by
  unfold routeRequest
  by_cases hd : config.dryRun <;>
    simp [hEn, hGfm, hNe, hd, globalForceTruthy]

/-- C5 witness: concrete override decision via `routeRequest_globalOverride`. -/
theorem routeRequest_globalOverride_witness :
    (routeRequest
      { model := "anthropic/claude-sonnet-4-5",
        messages := [{ role := "user", content := .str "ping" }] }
      { tier := .heartbeat, confidence := mkRat 95 100, reason := "r",
        signals := [], toolsDetected := false, safeToRetry := true }
      { enabled := true, dryRun := false,
        classification :=
          { conservativeMode := false, minConfidence := mkRat 70 100,
            toolAwareRouting := true },
        escalation :=
          { enabled := true, maxRetries := 2, onlyRetryBeforeStreaming := true,
            onlyRetryWithoutToolCalls := true, alwaysFallbackToOriginal := true },
        models := fun _ => ⟨"openai/gpt-5-mini", "google/gemini-2.5-flash"⟩,
        overrides := { globalForceModel := some "openai/gpt-4o" },
        apiKeys := fun _ => "k",
        license := { enabled := true, graceUntil := none } } 0).routedModel =
      "openai/gpt-4o" := by
  have h := routeRequest_globalOverride
    { model := "anthropic/claude-sonnet-4-5",
      messages := [{ role := "user", content := .str "ping" }] }
    { tier := .heartbeat, confidence := mkRat 95 100, reason := "r",
      signals := [], toolsDetected := false, safeToRetry := true }
    { enabled := true, dryRun := false,
      classification :=
        { conservativeMode := false, minConfidence := mkRat 70 100,
          toolAwareRouting := true },
      escalation :=
        { enabled := true, maxRetries := 2, onlyRetryBeforeStreaming := true,
          onlyRetryWithoutToolCalls := true, alwaysFallbackToOriginal := true },
      models := fun _ => ⟨"openai/gpt-5-mini", "google/gemini-2.5-flash"⟩,
      overrides := { globalForceModel := some "openai/gpt-4o" },
      apiKeys := fun _ => "k",
      license := { enabled := true, graceUntil := none } } 0
    "openai/gpt-4o" rfl rfl (by decide)
  simpa using h.2.2

/-- C10: every `RoutingDecision.estimatedSavingsUsd` and every
`ExecutionResult.savingsUsd` (non-streaming and streaming paths) is
non-negative. -/
theorem savings_nonneg (request : ChatCompletionRequest)
    (classification : ClassificationResult) (config : ClawRouteConfig)
    (now : Nat) (env : ExecEnv) (now2 : Nat) :
    0 ≤ (routeRequest request classification config now).estimatedSavingsUsd ∧
    0 ≤ (executeRequestNS env).savingsUsd ∧
    0 ≤ (executeRequestStream env now2).savingsUsd := by
  refine ⟨?_, ?_, ?_⟩
  · unfold routeRequest
    split
    · simp
    · simp [le_max_left]
  · simp [executeRequestNS, buildExecutionResult, le_max_left]
  · simp [executeRequestStream, buildExecutionResult, le_max_left]

/-- A tier's configured models are usable: primary or fallback provider
has a non-empty key (the per-tier test inside `getEscalatedModel`). -/
def tierHasAvailableModel (config : ClawRouteConfig) (t : TaskTier) : Bool :=
  hasApiKey config (getProviderForModel (config.models t).primary) ||
  hasApiKey config (getProviderForModel (config.models t).fallback)

/-- C6: `getEscalatedModel t config` returns either `null` or a pair
`(model, tier')` with `tier'` strictly above `t`, `tier'` the first
strictly-higher tier whose primary or (failing that) fallback provider
has a non-empty key, and `model` that primary (else fallback) id. -/
theorem getEscalatedModel_spec (t : TaskTier) (config : ClawRouteConfig)
    (m : String) (t' : TaskTier)
    (h : getEscalatedModel t config = some (m, t')) :
    TIER_ORDER t < TIER_ORDER t' ∧
    tierHasAvailableModel config t' = true ∧
    (∀ u : TaskTier, TIER_ORDER t < TIER_ORDER u → TIER_ORDER u < TIER_ORDER t' →
      tierHasAvailableModel config u = false) ∧
    m = (if hasApiKey config (getProviderForModel (config.models t').primary)
         then (config.models t').primary else (config.models t').fallback) := by
  cases t
  case frontier =>
    have h' : (none : Option (String × TaskTier)) = some (m, t') := h
    exact Option.noConfusion h'
  case heartbeat =>
    have h' : escalFind config [.simple, .moderate, .complex, .frontier] =
        some (m, t') := h
    clear h
    simp only [escalFind] at h'
    split_ifs at h' with h1 h2 h3 h4 h5 h6 h7 h8
    all_goals
      simp only [Option.some.injEq, Prod.mk.injEq] at h'
      obtain ⟨hm, ht⟩ := h'
      subst m; subst t'
      refine ⟨by decide, by simp [tierHasAvailableModel, *], ?_, by simp [*]⟩
      intro u hu1 hu2
      cases u <;> simp_all [TIER_ORDER, tierHasAvailableModel]
  case simple =>
    have h' : escalFind config [.moderate, .complex, .frontier] = some (m, t') := h
    clear h
    simp only [escalFind] at h'
    split_ifs at h' with h1 h2 h3 h4 h5 h6
    all_goals
      simp only [Option.some.injEq, Prod.mk.injEq] at h'
      obtain ⟨hm, ht⟩ := h'
      subst m; subst t'
      refine ⟨by decide, by simp [tierHasAvailableModel, *], ?_, by simp [*]⟩
      intro u hu1 hu2
      cases u <;> simp_all [TIER_ORDER, tierHasAvailableModel]
  case moderate =>
    have h' : escalFind config [.complex, .frontier] = some (m, t') := h
    clear h
    simp only [escalFind] at h'
    split_ifs at h' with h1 h2 h3 h4
    all_goals
      simp only [Option.some.injEq, Prod.mk.injEq] at h'
      obtain ⟨hm, ht⟩ := h'
      subst m; subst t'
      refine ⟨by decide, by simp [tierHasAvailableModel, *], ?_, by simp [*]⟩
      intro u hu1 hu2
      cases u <;> simp_all [TIER_ORDER, tierHasAvailableModel]
  case complex =>
    have h' : escalFind config [.frontier] = some (m, t') := h
    clear h
    simp only [escalFind] at h'
    split_ifs at h' with h1 h2
    all_goals
      simp only [Option.some.injEq, Prod.mk.injEq] at h'
      obtain ⟨hm, ht⟩ := h'
      subst m; subst t'
      refine ⟨by decide, by simp [tierHasAvailableModel, *], ?_, by simp [*]⟩
      intro u hu1 hu2
      cases u <;> simp_all [TIER_ORDER, tierHasAvailableModel]

/-- A sample Pro configuration with only the openai key set and the
default model ids on every tier; used by concrete witnesses. -/
def sampleConfig : ClawRouteConfig :=
  { enabled := true, dryRun := false,
    classification :=
      { conservativeMode := false, minConfidence := mkRat 70 100,
        toolAwareRouting := true },
    escalation :=
      { enabled := true, maxRetries := 2, onlyRetryBeforeStreaming := true,
        onlyRetryWithoutToolCalls := true, alwaysFallbackToOriginal := true },
    models := fun t =>
      match t with
      | .heartbeat => ⟨"google/gemini-2.5-flash-lite", "deepseek/deepseek-chat"⟩
      | .simple => ⟨"google/gemini-2.5-flash-lite", "deepseek/deepseek-chat"⟩
      | .moderate => ⟨"google/gemini-2.5-flash", "openai/gpt-5-mini"⟩
      | .complex => ⟨"anthropic/claude-sonnet-4-6", "openai/gpt-5.2"⟩
      | .frontier => ⟨"anthropic/claude-opus-4-6", "openai/o3"⟩,
    overrides := { globalForceModel := none },
    apiKeys := fun p => match p with | .openai => "sk-test" | _ => "",
    license := { enabled := true, graceUntil := none } }

/-- C6 witness: from Heartbeat under `sampleConfig` (only the openai key
set) the escalation target is the Moderate tier's fallback
`openai/gpt-5-mini`, and `getEscalatedModel_spec` applies to it. -/
theorem getEscalatedModel_spec_witness :
    getEscalatedModel TaskTier.heartbeat sampleConfig =
      some ("openai/gpt-5-mini", TaskTier.moderate) ∧
    TIER_ORDER TaskTier.heartbeat < TIER_ORDER TaskTier.moderate ∧
    tierHasAvailableModel sampleConfig TaskTier.moderate = true ∧
    (∀ u : TaskTier, TIER_ORDER TaskTier.heartbeat < TIER_ORDER u →
      TIER_ORDER u < TIER_ORDER TaskTier.moderate →
      tierHasAvailableModel sampleConfig u = false) ∧
    "openai/gpt-5-mini" =
      (if hasApiKey sampleConfig
          (getProviderForModel (sampleConfig.models TaskTier.moderate).primary)
       then (sampleConfig.models TaskTier.moderate).primary
       else (sampleConfig.models TaskTier.moderate).fallback) :=
  ⟨by decide,
   getEscalatedModel_spec TaskTier.heartbeat sampleConfig "openai/gpt-5-mini"
     TaskTier.moderate (by decide)⟩

/-- `sampleConfig` with every provider key set. -/
def proAllKeysConfig : ClawRouteConfig :=
  { sampleConfig with apiKeys := fun _ => "k" }

/-- Free-plan variant of `proAllKeysConfig`: license off, no grace. -/
def freeAllKeysConfig : ClawRouteConfig :=
  { proAllKeysConfig with license := { enabled := false, graceUntil := none } }

/-- A classification fixed at COMPLEX without tools. -/
def complexClassification : ClassificationResult :=
  { tier := .complex, confidence := mkRat 85 100, reason := "r", signals := [],
    toolsDetected := false, safeToRetry := false }

/-- A one-message request for `anthropic/claude-sonnet-4-5`. -/
def sonnetRequest : ChatCompletionRequest :=
  { model := "anthropic/claude-sonnet-4-5",
    messages := [{ role := "user", content := .str "hello there" }] }

/-- C3 counterexample: with the proxy enabled, no global override, dry-run
off and every provider key present, a COMPLEX request on the Free plan is
routed to the original model as pass-through, not to `models[tier].primary`
as the claim states. -/
theorem routeRequest_tierSelect_counterexample :
    freeAllKeysConfig.enabled = true ∧
    freeAllKeysConfig.overrides.globalForceModel = none ∧
    freeAllKeysConfig.dryRun = false ∧
    hasApiKey freeAllKeysConfig
      (getProviderForModel (freeAllKeysConfig.models TaskTier.complex).primary) = true ∧
    (routeRequest sonnetRequest complexClassification freeAllKeysConfig 0).routedModel ≠
      (freeAllKeysConfig.models TaskTier.complex).primary ∧
    (routeRequest sonnetRequest complexClassification freeAllKeysConfig 0).routedModel =
      sonnetRequest.model ∧
    (routeRequest sonnetRequest complexClassification freeAllKeysConfig 0).isPassthrough =
      true := by
  decide

/-- C3 (amended): with the proxy enabled, no global force override,
dry-run off, and the Free-plan gating not applying to the classified tier
(Pro active, or a tier the Free plan routes), `routeRequest` picks
`models[tier].primary` when its provider has a key, else the fallback
when its provider has a key, else a pass-through decision. -/
theorem routeRequest_tierSelect (request : ChatCompletionRequest)
    (classification : ClassificationResult) (config : ClawRouteConfig)
    (now : Nat) (hEn : config.enabled = true)
    (hOv : globalForceTruthy config = false) (hDry : config.dryRun = false)
    (hGate : shouldFreeTierUseOriginal classification.tier config now = false)
    (hGateM : shouldFreeModerateUseOriginal classification.tier
      classification.toolsDetected config now = false) :
    (hasApiKey config
        (getProviderForModel (config.models classification.tier).primary) = true →
      (routeRequest request classification config now).routedModel =
        (config.models classification.tier).primary ∧
      (routeRequest request classification config now).isPassthrough = false) ∧
    (hasApiKey config
        (getProviderForModel (config.models classification.tier).primary) = false →
      hasApiKey config
        (getProviderForModel (config.models classification.tier).fallback) = true →
      (routeRequest request classification config now).routedModel =
        (config.models classification.tier).fallback ∧
      (routeRequest request classification config now).isPassthrough = false) ∧
    (hasApiKey config
        (getProviderForModel (config.models classification.tier).primary) = false →
      hasApiKey config
        (getProviderForModel (config.models classification.tier).fallback) = false →
      (routeRequest request classification config now).routedModel = request.model ∧
      (routeRequest request classification config now).isPassthrough = true) := by
  refine ⟨fun hp => ?_, fun hp hf => ?_, fun hp hf => ?_⟩ <;>
    simp [routeRequest, hEn, hOv, hDry, hGate, hGateM, hp, *]

/-- C3 witness: under `proAllKeysConfig` a COMPLEX classification routes
to the complex tier's primary model, via `routeRequest_tierSelect`. -/
theorem routeRequest_tierSelect_witness :
    proAllKeysConfig.enabled = true ∧
    globalForceTruthy proAllKeysConfig = false ∧
    proAllKeysConfig.dryRun = false ∧
    (routeRequest sonnetRequest complexClassification proAllKeysConfig 0).routedModel =
      (proAllKeysConfig.models TaskTier.complex).primary := by
  refine ⟨by decide, by decide, by decide, ?_⟩
  have h := (routeRequest_tierSelect sonnetRequest complexClassification
    proAllKeysConfig 0 (by decide) (by decide) (by decide) (by decide) (by decide)).1
    (by decide)
  exact h.1

/-- `freeAllKeysConfig` with a global force override set. -/
def freeOverrideConfig : ClawRouteConfig :=
  { freeAllKeysConfig with overrides := { globalForceModel := some "openai/gpt-4o" } }

/-- C4 counterexample: on the Free plan (license off, no grace) with a
global force override set, a COMPLEX request is NOT routed as pass-through
(the override wins), so the claim's universal pass-through statement
fails. -/
theorem freePlan_gating_counterexample :
    isProEnabled freeOverrideConfig 0 = false ∧
    (routeRequest sonnetRequest complexClassification freeOverrideConfig 0).isPassthrough =
      false ∧
    (routeRequest sonnetRequest complexClassification freeOverrideConfig 0).routedModel =
      "openai/gpt-4o" := by
  decide

/-- C4 (amended): on the Free plan (license disabled, no unexpired grace)
and with no global force override, every request classified COMPLEX or
FRONTIER, and every MODERATE request with tools detected, yields a
pass-through decision even when provider keys are available; and the
executor's plan-gating check `canEscalate` permits escalation exactly
from the HEARTBEAT tier. -/
theorem freePlan_gating (request : ChatCompletionRequest)
    (classification : ClassificationResult) (config : ClawRouteConfig)
    (now : Nat) (hFree : isProEnabled config now = false)
    (hOv : globalForceTruthy config = false)
    (hTier : classification.tier = TaskTier.complex ∨
      classification.tier = TaskTier.frontier ∨
      (classification.tier = TaskTier.moderate ∧
       classification.toolsDetected = true)) :
    (routeRequest request classification config now).routedModel = request.model ∧
    (routeRequest request classification config now).isPassthrough = true ∧
    (∀ t : TaskTier, canEscalate t config now = true ↔ t = TaskTier.heartbeat) := by
  refine ⟨?_, ?_, fun t => ?_⟩
  · by_cases hEn : config.enabled
    · rcases hTier with ht | ht | ⟨ht, htools⟩ <;>
        simp [routeRequest, hEn, hOv, shouldFreeTierUseOriginal,
          shouldFreeModerateUseOriginal, hFree, ht, ite_self, *]
    · simp [routeRequest, Bool.of_not_eq_true hEn]
  · by_cases hEn : config.enabled
    · rcases hTier with ht | ht | ⟨ht, htools⟩ <;>
        simp [routeRequest, hEn, hOv, shouldFreeTierUseOriginal,
          shouldFreeModerateUseOriginal, hFree, ht, ite_self, *]
    · simp [routeRequest, Bool.of_not_eq_true hEn]
  · simp [canEscalate, hFree]

/-- C4 witness: on `freeAllKeysConfig` a COMPLEX request passes through
and only HEARTBEAT may escalate, via `freePlan_gating`. -/
theorem freePlan_gating_witness :
    isProEnabled freeAllKeysConfig 0 = false ∧
    (routeRequest sonnetRequest complexClassification freeAllKeysConfig 0).routedModel =
      sonnetRequest.model ∧
    (routeRequest sonnetRequest complexClassification freeAllKeysConfig 0).isPassthrough =
      true ∧
    canEscalate TaskTier.simple freeAllKeysConfig 0 = false :=
  have h := freePlan_gating sonnetRequest complexClassification freeAllKeysConfig 0
    (by decide) (by decide) (Or.inl (by decide))
  ⟨by decide, h.1, h.2.1, by decide⟩

/-- A plain toolless request used as validator input. -/
def plainRequest : ChatCompletionRequest :=
  { model := "m", messages := [{ role := "user", content := .str "hello" }] }

/-- An assistant message whose content is `"ok"` padded to 16 raw
characters (trimmed length 2). -/
def paddedOkMessage : ChatMessage :=
  { role := "assistant", content := .str "ok              ", tool_calls := none }

/-- A response body carrying `paddedOkMessage` as its only choice. -/
def paddedOkBody : ChatCompletionResponseBody :=
  { error := none
    choices := some [{ index := 0, message := some paddedOkMessage, finish_reason := some "stop" }]
    usage := none }

/-- C7 counterexample: the claim keys the short-response check on the
trimmed content length, but the code tests the raw length: `"ok"` padded
with 14 trailing spaces has trimmed length 2 ∈ [1, 14] yet is accepted as
valid (raw length 16 ≥ 15). -/
theorem validate_short_counterexample :
    (strTrim "ok              ").length = 2 ∧
    (validateResponse true 200 (some paddedOkBody) plainRequest
      TaskTier.moderate).valid = true ∧
    (validateResponse true 200 (some paddedOkBody) plainRequest
      TaskTier.moderate).reason = "ok" := by
  decide

/-- C7 (amended): for a validated response at a non-Heartbeat tier whose
first choice's message carries no tool calls and has string content `s`,
the response is invalid with `suspiciously_short_response` exactly when
the raw (untrimmed) length of `s` is at most 14 and `s` does not trim to
the empty string; otherwise this check passes and the response is valid. -/
theorem validate_short_spec (request : ChatCompletionRequest)
    (tier : TaskTier) (status : Nat) (body : ChatCompletionResponseBody)
    (ch : ResponseChoice) (rest : List ResponseChoice) (msg : ChatMessage)
    (s : String) (hTier : tier ≠ TaskTier.heartbeat)
    (hErr : errorTruthy body = false)
    (hCh : body.choices = some (ch :: rest)) (hMsg : ch.message = some msg)
    (hTc : msg.tool_calls = none ∨ msg.tool_calls = some [])
    (hCont : msg.content = .str s) :
    validateResponse true status (some body) request tier =
      (if s.length < 15 ∧ strTrim s ≠ "" then
        { valid := false, reason := "suspiciously_short_response",
          hadToolCalls := false }
      else { valid := true, reason := "ok", hadToolCalls := false }) := by
  rcases hTc with h | h <;>
    by_cases hLen : s.length < 15 <;> by_cases hTrim : strTrim s = "" <;>
      simp [validateResponse, hErr, hCh, hMsg, h, hCont, hTier, hLen, hTrim]

/-- An assistant message whose content is the two-character string `"hi"`. -/
def hiMessage : ChatMessage :=
  { role := "assistant", content := .str "hi", tool_calls := none }

/-- A response body carrying `hiMessage` as its only choice. -/
def hiBody : ChatCompletionResponseBody :=
  { error := none
    choices := some [{ index := 0, message := some hiMessage, finish_reason := some "stop" }]
    usage := none }

/-- C7 witness: a 2-character content at MODERATE is rejected as
`suspiciously_short_response`, via `validate_short_spec`. -/
theorem validate_short_spec_witness :
    validateResponse true 200 (some hiBody) plainRequest TaskTier.moderate =
      { valid := false, reason := "suspiciously_short_response",
        hadToolCalls := false } := by
  have h := validate_short_spec plainRequest TaskTier.moderate 200 hiBody
    { index := 0, message := some hiMessage, finish_reason := some "stop" } []
    hiMessage "hi"
    (by decide) (by decide) (by decide) (by decide) (Or.inl rfl) (by decide)
  rw [h]
  decide

/-- A one-message request whose question contains an interior `?`:
44 characters, trimmed, ending in `?`. -/
def innerQuestionRequest : ChatCompletionRequest :=
  { model := "test-model"
    messages :=
      [{ role := "user",
         content := .str "what is the answer? and what about this one?" }] }

/-- C8 counterexample: the claim's condition (`.*\?$`, < 80 chars,
shallow history, no tools, no earlier rule firing) holds for a question
with an interior `?`, yet the classifier leaves it MODERATE: the code's
pattern is `^[^?]{0,100}\?$`, which forbids interior question marks. -/
theorem classify_simpleQuestion_counterexample :
    (strTrim "what is the answer? and what about this one?").length < 80 ∧
    strEndsWith (strTrim "what is the answer? and what about this one?") "?" = true ∧
    innerQuestionRequest.messages.length ≤ 2 ∧
    requestHasTools innerQuestionRequest = false ∧
    (isHeartbeat "what is the answer? and what about this one?" 1 false).matched = false ∧
    (isFrontier innerQuestionRequest "what is the answer? and what about this one?"
      (estimateMessagesTokens innerQuestionRequest.messages)).matched = false ∧
    (isComplex innerQuestionRequest "what is the answer? and what about this one?" 1
      (estimateMessagesTokens innerQuestionRequest.messages)).matched = false ∧
    acknowledgmentPatternsTest
      (strTrim "what is the answer? and what about this one?") = false ∧
    sampleConfig.classification.conservativeMode = false ∧
    (classifyRequest innerQuestionRequest sampleConfig).tier = TaskTier.moderate ∧
    (classifyRequest innerQuestionRequest sampleConfig).tier ≠ TaskTier.simple := by
  decide

/-- C8 (amended): when no model-name heartbeat hint, heartbeat, frontier,
complex or acknowledgment rule captures the request, the trimmed last user
message is shorter than 80 characters and matches `^[^?]{0,100}\?$` (ends
in `?` with no interior `?`), the history is at most 2 messages and no
tools are present, the classifier assigns tier Simple with confidence
0.8 — provided conservative mode does not escalate it (off, or
`minConfidence ≤ 0.8`). -/
theorem classify_simpleQuestion_spec (request : ChatCompletionRequest)
    (config : ClawRouteConfig)
    (hHint : (strIncludes (strToLower request.model) "heartbeat" ||
              strIncludes (strToLower request.model) "cron" ||
              strIncludes (strToLower request.model) "health") = false)
    (hTools : requestHasTools request = false)
    (hHb : (isHeartbeat (getLastUserMessage request.messages)
      request.messages.length false).matched = false)
    (hFr : (isFrontier request (getLastUserMessage request.messages)
      (estimateMessagesTokens request.messages)).matched = false)
    (hCx : (isComplex request (getLastUserMessage request.messages)
      request.messages.length (estimateMessagesTokens request.messages)).matched = false)
    (hAck : acknowledgmentPatternsTest
      (strTrim (getLastUserMessage request.messages)) = false)
    (hLen : (strTrim (getLastUserMessage request.messages)).length < 80)
    (hQ : simpleQuestionPattern (strTrim (getLastUserMessage request.messages)) = true)
    (hCount : request.messages.length ≤ 2)
    (hCons : config.classification.conservativeMode = false ∨
             config.classification.minConfidence ≤ mkRat 80 100) :
    (classifyRequest request config).tier = TaskTier.simple ∧
    (classifyRequest request config).confidence = mkRat 80 100 := by
  have hSimple : isSimple (getLastUserMessage request.messages)
      request.messages.length false = ⟨true, mkRat 80 100⟩ := by
    simp [isSimple, hAck, hLen, hQ, hCount]
  rcases hCons with hc | hc
  · constructor <;>
      simp [classifyRequest, hHint, hTools, hHb, hFr, hCx, hSimple, hc]
  · have h1 : ¬(mkRat 80 100 < config.classification.minConfidence) := not_lt.mpr hc
    have h2 : ¬(mkRat 80 100 < mkRat 50 100) := by decide
    constructor <;>
      simp [classifyRequest, hHint, hTools, hHb, hFr, hCx, hSimple, h1, h2,
        ite_self]

/-- A one-message request with a 45-character question and no interior
`?`. -/
def capitalQuestionRequest : ChatCompletionRequest :=
  { model := "test-model"
    messages :=
      [{ role := "user",
         content := .str "what is the capital city of France today sir?" }] }

/-- C8 witness: the 45-character single-`?` question classifies as Simple
with confidence 0.8 under `sampleConfig`, via `classify_simpleQuestion_spec`. -/
theorem classify_simpleQuestion_spec_witness :
    (classifyRequest capitalQuestionRequest sampleConfig).tier = TaskTier.simple ∧
    (classifyRequest capitalQuestionRequest sampleConfig).confidence = mkRat 80 100 :=
  classify_simpleQuestion_spec capitalQuestionRequest sampleConfig
    (by decide) (by decide) (by decide) (by decide) (by decide) (by decide)
    (by decide) (by decide) (by decide) (Or.inl (by decide))

/-- C9 counterexample: `"flash"` has no `/` and contains none of the
heuristic substrings (`claude`, `gpt`, `o1`, `o3`, `gemini`, `deepseek`),
so the claim's rule says the provider defaults to openai — but the code
first consults the model registry, whose case-insensitive substring match
resolves `"flash"` to `google/gemini-2.5-flash-lite`, giving google. -/
theorem getProviderForModel_counterexample :
    ("flash".data.contains '/') = false ∧
    strIncludes (strToLower "flash") "claude" = false ∧
    strIncludes (strToLower "flash") "gpt" = false ∧
    strIncludes (strToLower "flash") "o1" = false ∧
    strIncludes (strToLower "flash") "o3" = false ∧
    strIncludes (strToLower "flash") "gemini" = false ∧
    strIncludes (strToLower "flash") "deepseek" = false ∧
    getProviderForModel "flash" = ProviderType.google ∧
    getProviderForModel "flash" ≠ ProviderType.openai := by
  decide

/-- The amended provider-derivation rule, phrased from the spec sentence
with the missing middle step restored: slash prefix naming a known
provider; else the registry lookup (`getModelEntry`); else the substring
heuristics; else openai. -/
def providerOfModelSpec (modelId : String) : ProviderType :=
  if modelId.data.contains '/' ∧
      (strToLower (slashHead modelId)) ∈
        ["anthropic", "openai", "google", "deepseek", "openrouter"] then
    (if strToLower (slashHead modelId) = "anthropic" then .anthropic
     else if strToLower (slashHead modelId) = "openai" then .openai
     else if strToLower (slashHead modelId) = "google" then .google
     else if strToLower (slashHead modelId) = "deepseek" then .deepseek
     else .openrouter)
  else
    match getModelEntry modelId with
    | some e => e.provider
    | none =>
      if strIncludes (strToLower modelId) "claude" then .anthropic
      else if strIncludes (strToLower modelId) "gpt" ∨
              strIncludes (strToLower modelId) "o3" ∨
              strIncludes (strToLower modelId) "o1" then .openai
      else if strIncludes (strToLower modelId) "gemini" then .google
      else if strIncludes (strToLower modelId) "deepseek" then .deepseek
      else .openai

/-- C9 (amended): `getProviderForModel` derives the provider by slash
prefix when it names a known provider, else by registry lookup, else by
substring heuristics, defaulting to openai. -/
theorem getProviderForModel_spec (modelId : String) :
    getProviderForModel modelId = providerOfModelSpec modelId := by
  unfold getProviderForModel providerOfModelSpec
  by_cases hs : modelId.data.contains '/' <;>
    by_cases h1 : strToLower (slashHead modelId) = "anthropic" <;>
    by_cases h2 : strToLower (slashHead modelId) = "openai" <;>
    by_cases h3 : strToLower (slashHead modelId) = "google" <;>
    by_cases h4 : strToLower (slashHead modelId) = "deepseek" <;>
    by_cases h5 : strToLower (slashHead modelId) = "openrouter" <;>
      simp_all [or_assoc]

/-- An assistant message with a non-empty `tool_calls` array. -/
def toolCallMsg : ChatMessage :=
  { role := "assistant", content := .str "calling tools now with text",
    tool_calls := some [{ id := "call_1", function := { name := "f", arguments := "" } }] }

/-- An OK body that carries both an `error` field and a first-choice
message with a non-empty `tool_calls` array. -/
def errorToolCallBody : ChatCompletionResponseBody :=
  { error := some "boom"
    choices := some [{ index := 0, message := some toolCallMsg, finish_reason := some "tool_calls" }]
    usage := none }

/-- A retry-friendly routing decision (SIMPLE tier, safe to retry). -/
def c1Decision : RoutingDecision :=
  { originalModel := "anthropic/claude-sonnet-4-5"
    routedModel := "google/gemini-2.5-flash-lite"
    tier := .simple
    reason := ""
    confidence := 1
    isDryRun := false
    isOverride := false
    isPassthrough := false
    estimatedSavingsUsd := 0
    safeToRetry := true }

/-- Upstream fleet: first dispatch yields the error-plus-tool-calls body,
every further dispatch yields a valid body. -/
def c1Oracle : Nat → DispatchOutcome := fun k =>
  if k = 0 then .http true 200 "BODY0" (some errorToolCallBody)
  else .http true 200 "BODY1" (some paddedOkBody)

/-- Executor inputs for the C1 counterexample. -/
def c1Env : ExecEnv :=
  { request := plainRequest, routingDecision := c1Decision,
    config := proAllKeysConfig, oracle := c1Oracle }

/-- C1 counterexample: the first upstream response is received and
validated, and its first choice's message has a non-empty `tool_calls`
array — but the body also carries an `error` field, so the validator
stops at `api_error_response` with its tool-call flag unset, and the
executor dispatches upstream a second time and returns the second body,
contradicting the claim. -/
theorem executor_toolCalls_counterexample :
    c1Env.oracle 0 = .http true 200 "BODY0" (some errorToolCallBody) ∧
    errorToolCallBody.choices =
      some [{ index := 0, message := some toolCallMsg, finish_reason := some "tool_calls" }] ∧
    toolCallMsg.tool_calls =
      some [{ id := "call_1", function := { name := "f", arguments := "" } }] ∧
    (executeRequestNS c1Env).dispatches = 2 ∧
    (executeRequestNS c1Env).respBodyText = "BODY1" := by
  decide

/-- C1 (amended): once the non-streaming executor has received an OK
upstream response whose validation sets the tool-call flag (the body
parses, has no error field, and its first choice's message carries a
non-empty `tool_calls` array), the retry loop makes no further upstream
dispatch for that request, regardless of whether validation failed and
of remaining retries.  If validation succeeded, the response is
recreated from its body text and returned to the client verbatim with
exactly that one dispatch.  If validation failed (unknown tool name or
bad tool-call JSON), the loop still stops, but it holds the original
Response whose body `text()` consumed, so the header decoration throws,
`executeRequest` rejects, and the endpoint answers with one
`executePassthrough` dispatch of the original request instead of the
tool-call body. -/
theorem executor_toolCalls_terminal (env : ExecEnv) (rl : Nat)
    (st : NSLoopState) (k : Nat) (status : Nat) (bodyText : String)
    (body : ChatCompletionResponseBody)
    (hD : env.oracle k = .http true status bodyText (some body))
    (hHad : (validateResponse true status (some body) env.request
      st.currentTier).hadToolCalls = true) :
    (execNSLoop env rl st k).dispatches = k + 1 ∧
    (execNSLoop env rl st k).response =
      ⟨true, status, bodyText,
        !(validateResponse true status (some body) env.request st.currentTier).valid⟩ ∧
    (execNSLoop env rl st k).state.hadToolCalls = true ∧
    (st = initialNSState env.routingDecision → k = 0 →
      ((validateResponse true status (some body) env.request st.currentTier).valid = true →
        executeRequestNSResult env = Except.ok (executeRequestNS env) ∧
        (executeRequestNS env).dispatches = 1 ∧
        (executeRequestNS env).respBodyText = bodyText ∧
        (executeRequestNS env).hadToolCalls = true ∧
        handleChatCompletionsNS env = (⟨true, status, bodyText, false⟩, 1)) ∧
      ((validateResponse true status (some body) env.request st.currentTier).valid = false →
        executeRequestNSResult env = Except.error () ∧
        handleChatCompletionsNS env = executePassthrough env 1)) := by
  have hstep : ∀ hr : Bool, execNSStep env hr st k =
      .done ⟨⟨true, status, bodyText,
        !(validateResponse true status (some body) env.request st.currentTier).valid⟩,
        { st with
          responseBody := some body
          hadToolCalls := (validateResponse true status (some body) env.request
            st.currentTier).hadToolCalls },
        k + 1⟩ := by
    intro hr
    by_cases hv : (validateResponse true status (some body) env.request
        st.currentTier).valid
    · simp [execNSStep, hD, hv]
    · simp [execNSStep, hD, hv, hHad]
  have hloop : ∀ rl' : Nat, execNSLoop env rl' st k =
      ⟨⟨true, status, bodyText,
        !(validateResponse true status (some body) env.request st.currentTier).valid⟩,
        { st with
          responseBody := some body
          hadToolCalls := (validateResponse true status (some body) env.request
            st.currentTier).hadToolCalls },
        k + 1⟩ := by
    intro rl'
    cases rl' <;> simp [execNSLoop, hstep]
  refine ⟨by rw [hloop], by rw [hloop], by rw [hloop]; exact hHad, ?_⟩
  intro hst hk
  subst hst; subst hk
  constructor
  · intro hv
    have hok : executeRequestNSResult env = Except.ok (executeRequestNS env) := by
      simp [executeRequestNSResult, hloop, hv]
    refine ⟨hok, ?_, ?_, ?_, ?_⟩
    · simp [executeRequestNS, hloop, buildExecutionResult]
    · simp [executeRequestNS, hloop, buildExecutionResult]
    · simp [executeRequestNS, hloop, buildExecutionResult, hHad]
    · rw [handleChatCompletionsNS, hok]
      simp [executeRequestNS, hloop, buildExecutionResult]
  · intro hv
    have herr : executeRequestNSResult env = Except.error () := by
      simp [executeRequestNSResult, hloop, hv]
    refine ⟨herr, ?_⟩
    rw [handleChatCompletionsNS, herr]
    simp [hloop]

/-- An OK body whose first choice's message has tool calls and no error
field: validation keeps the tool-call flag and succeeds. -/
def okToolCallBody : ChatCompletionResponseBody :=
  { error := none
    choices := some [{ index := 0, message := some toolCallMsg, finish_reason := some "tool_calls" }]
    usage := none }

/-- Upstream fleet answering every dispatch with `okToolCallBody`. -/
def c1WitnessOracle : Nat → DispatchOutcome := fun _ =>
  .http true 200 "TOOLBODY" (some okToolCallBody)

/-- Executor inputs for the C1 witness. -/
def c1WitnessEnv : ExecEnv :=
  { request := plainRequest, routingDecision := c1Decision,
    config := proAllKeysConfig, oracle := c1WitnessOracle }

/-- C1 witness: with a valid tool-call response on the first dispatch the
loop stops after exactly one dispatch and the client receives that body,
via `executor_toolCalls_terminal` at the initial loop state. -/
theorem executor_toolCalls_terminal_witness :
    (execNSLoop c1WitnessEnv 2 (initialNSState c1Decision) 0).dispatches = 0 + 1 ∧
    (execNSLoop c1WitnessEnv 2 (initialNSState c1Decision) 0).response =
      ⟨true, 200, "TOOLBODY",
        !(validateResponse true 200 (some okToolCallBody) c1WitnessEnv.request
          (initialNSState c1Decision).currentTier).valid⟩ ∧
    (execNSLoop c1WitnessEnv 2 (initialNSState c1Decision) 0).state.hadToolCalls = true ∧
    (initialNSState c1Decision = initialNSState c1WitnessEnv.routingDecision →
      (0 : Nat) = 0 →
      ((validateResponse true 200 (some okToolCallBody) c1WitnessEnv.request
          (initialNSState c1Decision).currentTier).valid = true →
        executeRequestNSResult c1WitnessEnv = Except.ok (executeRequestNS c1WitnessEnv) ∧
        (executeRequestNS c1WitnessEnv).dispatches = 1 ∧
        (executeRequestNS c1WitnessEnv).respBodyText = "TOOLBODY" ∧
        (executeRequestNS c1WitnessEnv).hadToolCalls = true ∧
        handleChatCompletionsNS c1WitnessEnv = (⟨true, 200, "TOOLBODY", false⟩, 1)) ∧
      ((validateResponse true 200 (some okToolCallBody) c1WitnessEnv.request
          (initialNSState c1Decision).currentTier).valid = false →
        executeRequestNSResult c1WitnessEnv = Except.error () ∧
        handleChatCompletionsNS c1WitnessEnv = executePassthrough c1WitnessEnv 1)) :=
  executor_toolCalls_terminal c1WitnessEnv 2 (initialNSState c1Decision) 0 200
    "TOOLBODY" okToolCallBody (by decide) (by decide)

end ClawRoute
